import Mathlib

/-!
A shallow embedding of `atomic_reactor/plugins/build_orchestrate_build.py`
(the multi-cluster orchestration core) and proofs about it.

Modelling conventions:
* Machine time is an abstract clock stream `clock : Nat → Int`; every call of
  `datetime.now()` in the source consumes one tick.  `time.sleep` reads no
  state, so it is invisible except that later `now()` calls read later clock
  entries (the stream is arbitrary, so every real timing is an instance).
* Network interactions (`list_builds`, `create_worker_build`,
  `wait_for_build_to_finish`/`get_build_logs`, `cancel_build`,
  `get_pod_for_build`) are oracles indexed by call counters, so every
  sequence of remote outcomes is an instance.
* Python dicts are association lists with first-occurrence lookup and
  in-place-replace/append insert, which matches CPython for the unique-key
  dicts the plugin manipulates.
* `load = current_builds / max_concurrent_builds` is modelled in `ℚ`
  (exact arithmetic in place of IEEE floats; the claims are about the order
  produced by the computed values).  The configuration guarantees
  `max_concurrent_builds > 0`.
* A JSON-text annotation value is represented by its `json.loads` outcome
  (`Except Unit Json`): `.ok j` for a string parsing to `j`, `.error ()` for
  a string that makes `json.loads` raise `ValueError`.
-/

/-! ### Python dict operations -/

/-- `d.get(k)` / `d[k]`: first-occurrence association-list lookup. -/
def pyLookup {K V : Type} [DecidableEq K] : List (K × V) → K → Option V
  | [], _ => none
  | (k', v) :: m, k => if k = k' then some v else pyLookup m k

/-- `d[k] = v`: replace the value at `k` in place, or append a new entry. -/
def pyInsert {K V : Type} [DecidableEq K] : List (K × V) → K → V → List (K × V)
  | [], k, v => [(k, v)]
  | (k', v') :: m, k, v =>
    if k = k' then (k', v) :: m else (k', v') :: pyInsert m k v

/-- `d.update(u)`: set each of `u`'s entries in turn. -/
def pyUpdate {K V : Type} [DecidableEq K] (m u : List (K × V)) : List (K × V) :=
  u.foldl (fun acc kv => pyInsert acc kv.1 kv.2) m

/-- `d.pop(k, None)`: drop the entry at `k`. -/
def pyPop {K V : Type} [DecidableEq K] (m : List (K × V)) (k : K) : List (K × V) :=
  m.filter (fun kv => kv.1 ≠ k)

/-! ### Cluster configuration and retry bookkeeping -/

/-- Static cluster configuration (`cluster.name`, `cluster.priority`,
`cluster.max_concurrent_builds`). -/
structure Cluster where
  name : String
  priority : Nat
  maxConcurrentBuilds : Nat
deriving DecidableEq

/-- `ClusterRetryContext`: per-cluster failure/backoff bookkeeping. -/
structure RetryCtx where
  fails : Nat
  retryAt : Int
  maxClusterFails : Nat
deriving DecidableEq

/-- `ClusterRetryContext.failed`: is this cluster considered dead? -/
def RetryCtx.isDead (c : RetryCtx) : Bool :=
  c.maxClusterFails ≤ c.fails

/-- `ClusterRetryContext.in_retry_wait` evaluated at clock value `now`. -/
def RetryCtx.inRetryWait (c : RetryCtx) (now : Int) : Bool :=
  now < c.retryAt

/-- `ClusterRetryContext.try_again_later(seconds)`, with `now` the value read
by its `datetime.now()` call. -/
def RetryCtx.tryAgainLater (c : RetryCtx) (now seconds : Int) : RetryCtx :=
  if c.isDead then c
  else { c with fails := c.fails + 1, retryAt := now + seconds }

/-- Fresh context built in `select_and_start_cluster`
(`fails = 0`, `retry_at = epoch`). -/
def RetryCtx.fresh (maxClusterFails : Nat) : RetryCtx :=
  { fails := 0, retryAt := 0, maxClusterFails := maxClusterFails }

/-- The message of the exception raised by `wait_for_any_cluster`. -/
def allClustersFailedMsg : String :=
  "Could not find appropriate cluster for worker build."

/-- `wait_for_any_cluster(contexts)`: raises `AllClustersFailedException`
when every context is dead (`min` of an empty sequence); otherwise sleeps
until the earliest retry time, reading the clock once.  Returns the advanced
tick counter. -/
def waitForAnyCluster (clusters : List Cluster) (ctxs : String → RetryCtx)
    (tick : Nat) : Except String Nat :=
  if clusters.all (fun c => (ctxs c.name).isDead) then
    .error allClustersFailedMsg
  else
    .ok (tick + 1)

/-! ### JSON values and remote-build data -/

/-- JSON documents (the image of `json.loads` on valid input). -/
inductive Json where
  | null : Json
  | bool (b : Bool) : Json
  | str (s : String) : Json
  | num (n : Int) : Json
  | arr (elems : List Json) : Json
  | obj (fields : List (String × Json)) : Json

/-- A JSON-text string modelled by its `json.loads` outcome. -/
def JsonStr : Type := Except Unit Json

/-- A remote build object as seen through the osbs-client API surface the
plugin uses: `get_build_name`, `is_succeeded`, `is_finished`,
`get_annotations` (`none` models a `None` annotation dict). -/
structure Build where
  buildName : String
  succeeded : Bool
  finished : Bool
  annots : Option (List (String × JsonStr))

/-- `WorkerBuildInfo`: `build` is the backing remote build (if any),
`clusterName` is `none` for the placeholder created on cluster exhaustion,
`monExc` holds `str()` of the recorded `monitor_exception` (`none` = not
recorded; the stored values are exception objects or a fixed non-empty
string, so `isSome` coincides with Python truthiness). -/
structure WBI where
  build : Option Build
  clusterName : Option String
  platform : String
  monExc : Option String

/-- Ephemeral `ClusterInfo` (the session handle lives in the environment). -/
structure ClusterInfo where
  cluster : Cluster
  platform : String
  load : ℚ
deriving DecidableEq

/-! ### Remote-session oracles -/

/-- Outcome of one `create_worker_build` call. -/
inductive CreateRes where
  | ok (b : Build)
  | osbsExc (m : String)
  | otherExc (m : String)

/-- Combined outcome of `watch_logs` + `wait_to_finish` for one attempt:
`.ok b` means both returned, with `b` the finished build assigned by
`wait_to_finish`; `.exc m` means one of them raised. -/
inductive MonitorRes where
  | ok (b : Build)
  | exc (m : String)

/-- Outcome of the remote `cancel_build` call. -/
inductive CancelRes where
  | ok
  | osbsExc (m : String)
  | otherExc (m : String)

/-- Outcome of the pod-inspection block in `get_fail_reason`
(`get_build_name` + `get_pod_for_build` + `get_failure_reason`):
`.ok j` produced a structured reason, `.caughtExc` raised an
`OsbsException`/`AttributeError` (swallowed by the source), `.uncaughtExc`
raised anything else. -/
inductive PodTryRes where
  | ok (j : Json)
  | caughtExc
  | uncaughtExc (m : String)

/-- The environment of one platform task: the clock stream and the remote
oracles, indexed by per-task call counters. -/
structure Env where
  clock : Nat → Int
  /-- `get_current_builds` for query index `q` and cluster name: `some n` is
  a successful `list_builds` count, `none` an `OsbsException`. -/
  loadQ : Nat → String → Option Nat
  createR : Nat → CreateRes
  monitorR : Nat → MonitorRes
  cancelR : Nat → CancelRes
  podQ : String → PodTryRes

/-- Mutable counters threaded through one platform task: clock tick, load
query index, build attempt index, and the retry contexts. -/
structure SelSt where
  tick : Nat
  q : Nat
  a : Nat
  ctxs : String → RetryCtx

/-! ### get_clusters -/

/-- Candidate order of `sorted(candidates, key=attrgetter('priority'))`
(a stable sort; the base iteration order of the Python set is unspecified,
we fix the candidate-list order). -/
def sortByPriority (l : List Cluster) : List Cluster :=
  l.insertionSort (fun a b => a.priority ≤ b.priority)

/-- `sorted(ret, key=lambda c: c.cluster.priority)` (stable). -/
def sortInfoByPriority (l : List ClusterInfo) : List ClusterInfo :=
  l.insertionSort (fun a b => a.cluster.priority ≤ b.cluster.priority)

/-- `sorted(ret, key=lambda c: c.load)` (stable). -/
def sortInfoByLoad (l : List ClusterInfo) : List ClusterInfo :=
  l.insertionSort (fun a b => a.load ≤ b.load)

/-- State of the `for cluster in sorted(candidates, ...)` scan inside
`get_clusters`: counters plus the `possible_cluster_info` accumulator
(a dict keyed by cluster, hence append-in-iteration-order). -/
structure ScanSt where
  st : SelSt
  possible : List ClusterInfo

/-- One iteration of the scan body for cluster `c`:
check `ctx.in_retry_wait` (one clock read) and `ctx.failed`; then
`get_cluster_info` (one load query); on `OsbsException`,
`ctx.try_again_later(find_cluster_retry_delay)` (one clock read). -/
def scanOne (env : Env) (findDelay : Int) (platform : String)
    (s : ScanSt) (c : Cluster) : ScanSt :=
  let ctx := s.st.ctxs c.name
  let now := env.clock s.st.tick
  let s1 : ScanSt := { s with st := { s.st with tick := s.st.tick + 1 } }
  if ctx.inRetryWait now then s1
  else if ctx.isDead then s1
  else
    match env.loadQ s1.st.q c.name with
    | some builds =>
      let info : ClusterInfo :=
        { cluster := c, platform := platform,
          load := (builds : ℚ) / (c.maxConcurrentBuilds : ℚ) }
      { st := { s1.st with q := s1.st.q + 1 },
        possible := s1.possible ++ [info] }
    | none =>
      let failNow := env.clock (s1.st.tick)
      { st := { s1.st with
                  q := s1.st.q + 1,
                  tick := s1.st.tick + 1,
                  ctxs := fun n =>
                    if n = c.name then (s1.st.ctxs n).tryAgainLater failNow findDelay
                    else s1.st.ctxs n },
        possible := s1.possible }

/-- The whole priority-ordered scan of one `while` iteration. -/
def scanRound (env : Env) (findDelay : Int) (platform : String)
    (cands : List Cluster) (s : ScanSt) : ScanSt :=
  (sortByPriority cands).foldl (scanOne env findDelay platform) s

/-- The `while candidates and not possible_cluster_info` loop of
`get_clusters`, with fuel (`none` = the loop did not exit within `fuel`
iterations).  Returns the accumulated `possible_cluster_info` (unsorted)
and the state. -/
def gcLoop (env : Env) (findDelay : Int) (platform : String)
    (allClusters : List Cluster) :
    Nat → List Cluster → List ClusterInfo → SelSt →
    Option (Except String (List ClusterInfo × SelSt))
  | 0, _, _, _ => none
  | fuel + 1, cands, possible, st =>
    if cands.isEmpty || !possible.isEmpty then some (.ok (possible, st))
    else
      match waitForAnyCluster allClusters (st.ctxs) st.tick with
      | .error e => some (.error e)
      | .ok tick' =>
        let s := scanRound env findDelay platform cands
          { st := { st with tick := tick' }, possible := possible }
        let cands' := cands.filter (fun c => !(s.st.ctxs c.name).isDead)
        gcLoop env findDelay platform allClusters fuel cands' s.possible s.st

/-- `get_clusters`: run the loop, then sort by priority and re-sort
(stably) by load. -/
def getClusters (env : Env) (findDelay : Int) (platform : String)
    (clusters : List Cluster) (fuel : Nat) (st : SelSt) :
    Option (Except String (List ClusterInfo × SelSt)) :=
  match gcLoop env findDelay platform clusters fuel clusters [] st with
  | none => none
  | some (.error e) => some (.error e)
  | some (.ok (possible, st')) =>
    some (.ok (sortInfoByLoad (sortInfoByPriority possible), st'))

/-! ### do_worker_build -/

/-- Result of one `do_worker_build` call: the `WorkerBuildInfo`s appended to
`self.worker_builds`, the number of `cancel_build()` invocations, and how
the call ended (`ok` = returned normally, `osbsRaise` = re-raised the
`OsbsException` from `create_worker_build`, `otherRaise` = an exception
escaped from the cancellation block). -/
inductive DoEnd where
  | ok
  | osbsRaise (m : String)
  | otherRaise (m : String)

structure DoOut where
  appended : List WBI
  cancelBuildCalls : Nat
  fin : DoEnd

/-- `do_worker_build(cluster_info)` for attempt index `a` (the kwargs
assembly is modelled separately by `doWorkerBuildSubmitKwargs`; it touches
no state relevant here). -/
def doWorkerBuild (env : Env) (a : Nat) (ci : ClusterInfo) : DoOut :=
  match env.createR a with
  | .osbsExc m =>
    -- `except OsbsException: ... raise` — re-raised before any append
    { appended := [], cancelBuildCalls := 0, fin := .osbsRaise m }
  | .otherExc _ =>
    -- `except Exception: self.log.exception(...)` — swallowed, `build` stays
    -- None and no monitor_exception is recorded
    { appended := [{ build := none, clusterName := some ci.cluster.name,
                     platform := ci.platform, monExc := none }],
      cancelBuildCalls := 0, fin := .ok }
  | .ok b =>
    match env.monitorR a with
    | .ok b' =>
      -- `wait_to_finish` reassigned `self.build`
      { appended := [{ build := some b', clusterName := some ci.cluster.name,
                       platform := ci.platform, monExc := none }],
        cancelBuildCalls := 0, fin := .ok }
    | .exc m =>
      let w : WBI := { build := some b, clusterName := some ci.cluster.name,
                       platform := ci.platform, monExc := some m }
      -- `cancel_build()` is invoked once; the remote call happens only if
      -- the build is not already finished; only OsbsException is swallowed
      if b.finished then
        { appended := [w], cancelBuildCalls := 1, fin := .ok }
      else
        match env.cancelR a with
        | .ok => { appended := [w], cancelBuildCalls := 1, fin := .ok }
        | .osbsExc _ => { appended := [w], cancelBuildCalls := 1, fin := .ok }
        | .otherExc me => { appended := [w], cancelBuildCalls := 1, fin := .otherRaise me }

/-! ### select_and_start_cluster -/

/-- How the `for cluster_info in possible_cluster_info` loop ended. -/
inductive TryEnd where
  | launched
  | exhausted
  | excOut (m : String)

structure TryOut where
  st : SelSt
  appended : List WBI
  /-- Cluster names in attempt order. -/
  attempted : List String
  fin : TryEnd

/-- The attempt loop of `select_and_start_cluster`: try `do_worker_build` on
each candidate in ranked order; on `OsbsException`,
`ctx.try_again_later(failure_retry_delay)` (one clock read) and continue. -/
def tryClusters (env : Env) (failDelay : Int) :
    List ClusterInfo → SelSt → TryOut
  | [], st => { st := st, appended := [], attempted := [], fin := .exhausted }
  | ci :: rest, st =>
    let d := doWorkerBuild env st.a ci
    let st1 := { st with a := st.a + 1 }
    match d.fin with
    | .ok =>
      { st := st1, appended := d.appended, attempted := [ci.cluster.name],
        fin := .launched }
    | .otherRaise m =>
      { st := st1, appended := d.appended, attempted := [ci.cluster.name],
        fin := .excOut m }
    | .osbsRaise _ =>
      let now := env.clock st1.tick
      let st2 := { st1 with
                     tick := st1.tick + 1,
                     ctxs := fun n =>
                       if n = ci.cluster.name then
                         (st1.ctxs n).tryAgainLater now failDelay
                       else st1.ctxs n }
      let r := tryClusters env failDelay rest st2
      { r with appended := d.appended ++ r.appended,
               attempted := ci.cluster.name :: r.attempted }

/-- Exceptions escaping a platform task. -/
inductive TaskExc where
  | unknownPlatform (m : String)
  | otherExc (m : String)

/-- The `while True` loop of `select_and_start_cluster`, with fuel.
Returns the `WorkerBuildInfo`s appended by the task and how it ended. -/
def selectLoop (env : Env) (gcFuel : Nat) (findDelay failDelay : Int)
    (platform : String) (clusters : List Cluster) :
    Nat → SelSt → Option (List WBI × SelSt × Except TaskExc Unit)
  | 0, _ => none
  | fuel + 1, st =>
    match getClusters env findDelay platform clusters gcFuel st with
    | none => none
    | some (.error _ex) =>
      -- `except AllClustersFailedException as ex`: placeholder
      -- WorkerBuildInfo with `monitor_exception = str(ex)`, then return
      some ([{ build := none, clusterName := none, platform := platform,
               monExc := some allClustersFailedMsg }], st, .ok ())
    | some (.ok (ranked, st')) =>
      let t := tryClusters env failDelay ranked st'
      match t.fin with
      | .launched => some (t.appended, t.st, .ok ())
      | .excOut m => some (t.appended, t.st, .error (.otherExc m))
      | .exhausted =>
        match selectLoop env gcFuel findDelay failDelay platform clusters fuel t.st with
        | none => none
        | some (ws, st'', r) => some (t.appended ++ ws, st'', r)

/-- `select_and_start_cluster(platform)`. -/
def selectAndStartCluster (env : Env) (gcFuel loopFuel : Nat)
    (findDelay failDelay : Int) (maxClusterFails : Nat)
    (platform : String) (clusters : List Cluster) :
    Option (List WBI × Except TaskExc Unit) :=
  if clusters.isEmpty then
    some ([], .error (.unknownPlatform
      ("No clusters found for platform " ++ platform ++ "!")))
  else
    let st0 : SelSt :=
      { tick := 0, q := 0, a := 0,
        ctxs := fun _ => RetryCtx.fresh maxClusterFails }
    match selectLoop env gcFuel findDelay failDelay platform clusters loopFuel st0 with
    | none => none
    | some (ws, _, r) => some (ws, r)

/-! ### get_fail_reason -/

/-- Python exceptions that can escape `get_fail_reason`. -/
inductive PyErr where
  | valueError      -- `json.loads` on a malformed annotation
  | typeError       -- subscripting / updating from a non-object value
  | podErr (m : String)  -- uncaught exception from the pod-inspection block
deriving DecidableEq

/-- `metadata['errors']`: `KeyError` (caught by the source) when the key is
missing from an object, `TypeError` (uncaught) when `metadata` is not an
object.  (String subscripts of arrays/strings raise TypeError in Python.) -/
inductive GetItemRes where
  | found (j : Json)
  | keyErr
  | typeErr

def jsonGetItem (j : Json) (k : String) : GetItemRes :=
  match j with
  | .obj fields =>
    match pyLookup fields k with
    | some v => .found v
    | none => .keyErr
  | _ => .typeErr

/-- `fail_reason.update(metadata['errors'])`: merging from a JSON object.
CPython would also accept certain iterables of key/value pairs; the worker
metadata `errors` member is an object in every supported flow, and no
theorem below evaluates the non-object branch, which we fold into
`TypeError`. -/
def dictUpdateJson (fr : List (String × Json)) (j : Json) :
    Except PyErr (List (String × Json)) :=
  match j with
  | .obj fields => .ok (pyUpdate fr fields)
  | _ => .error .typeError

/-- `WorkerBuildInfo.get_fail_reason()`. -/
def getFailReason (podQ : String → PodTryRes) (w : WBI) :
    Except PyErr (List (String × Json)) :=
  let fr : List (String × Json) :=
    match w.monExc with
    | some m => [("general", .str m)]
    | none => if w.build.isNone then [("general", .str "build not started")] else []
  match w.build with
  | none => .ok fr
  | some b =>
    let anns := b.annots.getD []
    -- metadata = json.loads(build_annotations.get('plugins-metadata', '{}'))
    match (pyLookup anns "plugins-metadata").getD (.ok (.obj [])) with
    | .error _ => .error .valueError
    | .ok metadata =>
      let fr :=
        match w.monExc with
        | some m => pyInsert fr "general" (.str m)
        | none => fr
      match jsonGetItem metadata "errors" with
      | .found errs => dictUpdateJson fr errs
      | .typeErr => .error .typeError
      | .keyErr =>
        match podQ b.buildName with
        | .ok j => .ok (pyInsert fr "pod" j)
        | .caughtExc => .ok fr
        | .uncaughtExc m => .error (.podErr m)

/-! ### Worker build kwargs (get_worker_build_kwargs + overrides) -/

/-- `get_worker_build_kwargs(release, platform, koji_upload_dir, task_id,
worker_openshift)`, over an abstract value type `V`.  The first line
deep-copies `self.build_kwargs`, so all subsequent writes are local.
`taskId = some t` models a truthy `filesystem_koji_task_id`;
`reactorOverride = some r` models a non-default reactor config (the
construction of the worker reactor conf is outside the claims). -/
def getWorkerBuildKwargs {V : Type} (buildKwargs : List (String × V))
    (release platform kojiUploadDir : V) (taskId : Option V)
    (reactorOverride : Option V) : List (String × V) :=
  let k := buildKwargs
  let k := pyPop k "architecture"
  let k := pyInsert k "release" release
  let k := pyInsert k "platform" platform
  let k := pyInsert k "koji_upload_dir" kojiUploadDir
  let k := match taskId with
           | some t => pyInsert k "filesystem_koji_task_id" t
           | none => k
  match reactorOverride with
  | some r => pyInsert k "reactor_config_override" r
  | none => k

/-- The caller-visible mutable mappings read by `do_worker_build`:
`self.build_kwargs` and the workspace override mapping
(`None` key = all-platform overrides). -/
structure KwEnv (V : Type) where
  buildKwargs : List (String × V)
  overrideKwargs : List (Option String × List (String × V))

/-- The kwargs-assembly of `do_worker_build` (lines building `kwargs` and
applying the two `kwargs.update(...)` calls), as a state transformer over
the caller-visible mappings: it returns the kwargs submitted to
`create_worker_build` together with the (unchanged) mappings, mirroring
that the source only deep-copies and reads them. -/
def doWorkerBuildSubmitKwargs {V : Type} (e : KwEnv V)
    (release platformV kojiUploadDir : V) (taskId : Option V)
    (reactorOverride : Option V) (platform : String) :
    List (String × V) × KwEnv V :=
  let kwargs := getWorkerBuildKwargs e.buildKwargs release platformV
    kojiUploadDir taskId reactorOverride
  -- if None in override_kwargs: kwargs.update(override_kwargs[None])
  let kwargs :=
    match pyLookup e.overrideKwargs none with
    | some g => pyUpdate kwargs g
    | none => kwargs
  -- if platform in override_kwargs: kwargs.update(override_kwargs[platform])
  let kwargs :=
    match pyLookup e.overrideKwargs (some platform) with
    | some p => pyUpdate kwargs p
    | none => kwargs
  (kwargs, e)

/-! ### run -/

/-- The per-platform environment handed to one task. -/
structure TaskEnv where
  env : Env
  clusters : List Cluster

/-- Exceptions that make `run` itself raise. -/
inductive RunExc where
  | unknownPlatform (m : String)  -- propagated from a task via result.get()
  | otherExc (m : String)         -- propagated from a task via result.get()
  | noPlatformsErr                -- `RuntimeError("No enabled platform to build on")`
  | diagErr (e : PyErr)           -- raised while computing fail_reasons

/-- Outcome of `OrchestrateBuildPlugin.run`: `raised` carries the
worker-build list alive at the raise (`run` best-effort-cancels them and
publishes nothing); otherwise the workspace build-info mapping is published
and `pluginFailed` additionally raises `PluginFailedException` whose payload
is `json.dumps` of the fail-reason mapping (modelled as the JSON document
rather than its string rendering). -/
inductive RunOut where
  | raised (e : RunExc) (wbis : List WBI)
  | pluginFailed (payload : Json) (published : List (String × WBI))
  | success (published : List (String × WBI))

def TaskExc.toRunExc : TaskExc → RunExc
  | .unknownPlatform m => .unknownPlatform m
  | .otherExc m => .otherExc m

/-- `{build_info.platform: build_info for build_info in self.worker_builds}`. -/
def buildInfoMap (wbis : List WBI) : List (String × WBI) :=
  wbis.foldl (fun m w => pyInsert m w.platform w) []

/-- A worker build counts as failed for `fail_reasons` iff
`not build_info.build or not build_info.build.is_succeeded()`. -/
def wbiFailed (w : WBI) : Bool :=
  match w.build with
  | none => true
  | some b => !b.succeeded

/-- The `fail_reasons` dict comprehension; `.error` models a diagnosis
exception propagating out of it. -/
def collectFailReasons (te : String → TaskEnv) :
    List WBI → Except PyErr (List (String × List (String × Json)))
  | [] => .ok []
  | w :: ws =>
    if wbiFailed w then
      match getFailReason (te w.platform).env.podQ w with
      | .error e => .error e
      | .ok r =>
        match collectFailReasons te ws with
        | .error e => .error e
        | .ok rest => .ok ((w.platform, r) :: rest)
    else collectFailReasons te ws

/-- `json.dumps(fail_reasons)` as a JSON document. -/
def jsonOfFailReasons (frs : List (String × List (String × Json))) : Json :=
  .obj (frs.map (fun pr => (pr.1, .obj pr.2)))

/-- Run every platform task (the thread pool fans out one task per platform;
we record the per-task results in platform order, one linearization of the
concurrent appends). -/
def runTasks (te : String → TaskEnv) (gcFuel loopFuel : Nat)
    (findDelay failDelay : Int) (maxClusterFails : Nat) :
    List String → Option (List (List WBI × Except TaskExc Unit))
  | [] => some []
  | p :: ps =>
    match selectAndStartCluster (te p).env gcFuel loopFuel findDelay failDelay
        maxClusterFails p (te p).clusters with
    | none => none
    | some r =>
      match runTasks te gcFuel loopFuel findDelay failDelay maxClusterFails ps with
      | none => none
      | some rs => some (r :: rs)

/-- First task exception in platform order (the error re-raised by
`result.get()`). -/
def firstTaskExc : List (List WBI × Except TaskExc Unit) → Option TaskExc
  | [] => none
  | (_, .error e) :: _ => some e
  | (_, .ok ()) :: rs => firstTaskExc rs

/-- The tail of `run()` after all platform tasks settle: re-raise the first
task exception (after best-effort cancellation of the accumulated worker
builds), else compute `fail_reasons` (which may itself raise), publish the
workspace build-info mapping, and raise `PluginFailedException` when any
platform failed. -/
def runAggregate (te : String → TaskEnv)
    (results : List (List WBI × Except TaskExc Unit)) : RunOut :=
  let wbis := (results.map (·.1)).flatten
  match firstTaskExc results with
  | some e => .raised e.toRunExc wbis
  | none =>
    match collectFailReasons te wbis with
    | .error pe => .raised (.diagErr pe) wbis
    | .ok frs =>
      let published := buildInfoMap wbis
      if frs.isEmpty then .success published
      else .pluginFailed (jsonOfFailReasons frs) published

/-- `OrchestrateBuildPlugin.run()`. -/
def runPlugin (te : String → TaskEnv) (gcFuel loopFuel : Nat)
    (findDelay failDelay : Int) (maxClusterFails : Nat)
    (platforms : List String) : Option RunOut :=
  if platforms.isEmpty then some (.raised .noPlatformsErr []) else
  match runTasks te gcFuel loopFuel findDelay failDelay maxClusterFails platforms with
  | none => none
  | some results => some (runAggregate te results)

/-- The per-platform mapping published by a `run` outcome (`none` when `run`
raised without publishing). -/
def RunOut.publishedMap : RunOut → Option (List (String × WBI))
  | .raised _ _ => none
  | .pluginFailed _ m => some m
  | .success m => some m

/-- Left-biased choice on `Option` (used to state override precedence). -/
def optOr {V : Type} : Option V → Option V → Option V
  | some v, _ => some v
  | none, b => b

/-- Lookup inside an optional nested dict (override mapping). -/
def ovLookup {V : Type} (ov : List (Option String × List (String × V)))
    (k : Option String) (key : String) : Option V :=
  match pyLookup ov k with
  | some d => pyLookup d key
  | none => none

/-! ## Lemmas about the dict operations -/

theorem pyLookup_pyInsert {K V : Type} [DecidableEq K]
    (m : List (K × V)) (k k' : K) (v : V) :
    pyLookup (pyInsert m k v) k' = if k' = k then some v else pyLookup m k' := by
  induction m with
  | nil =>
    simp only [pyInsert, pyLookup]
  | cons kv m ih =>
    obtain ⟨k0, v0⟩ := kv
    by_cases h : k = k0
    · subst h
      by_cases h' : k' = k <;> simp [pyInsert, pyLookup, h']
    · by_cases h' : k' = k0
      · subst h'
        have : ¬ k' = k := fun he => h (he ▸ rfl)
        simp [pyInsert, pyLookup, h, this, Ne.symm h]
      · simp [pyInsert, pyLookup, h, h', ih]

theorem pyLookup_eq_none {K V : Type} [DecidableEq K]
    (m : List (K × V)) (k : K) (h : k ∉ m.map Prod.fst) :
    pyLookup m k = none := by
  induction m with
  | nil => rfl
  | cons kv m ih =>
    simp only [List.map_cons, List.mem_cons] at h
    push_neg at h
    simp [pyLookup, h.1, ih h.2]

theorem pyLookup_pyUpdate {K V : Type} [DecidableEq K]
    (m u : List (K × V)) (k : K) (hu : (u.map Prod.fst).Nodup) :
    pyLookup (pyUpdate m u) k = optOr (pyLookup u k) (pyLookup m k) := by
  induction u generalizing m with
  | nil => simp [pyUpdate, pyLookup, optOr]
  | cons kv u ih =>
    obtain ⟨k0, v0⟩ := kv
    simp only [List.map_cons, List.nodup_cons] at hu
    have step : pyUpdate m ((k0, v0) :: u) = pyUpdate (pyInsert m k0 v0) u := rfl
    rw [step, ih _ hu.2]
    by_cases h : k = k0
    · subst h
      rw [pyLookup_eq_none u k hu.1]
      simp [pyLookup, pyLookup_pyInsert, optOr]
    · simp [pyLookup, pyLookup_pyInsert, h, optOr]

theorem pyInsert_fresh {K V : Type} [DecidableEq K]
    (m : List (K × V)) (k : K) (v : V) (h : k ∉ m.map Prod.fst) :
    pyInsert m k v = m ++ [(k, v)] := by
  induction m with
  | nil => rfl
  | cons kv m ih =>
    simp only [List.map_cons, List.mem_cons] at h
    push_neg at h
    simp [pyInsert, h.1, ih h.2]

/-! ## Stability: sorting a priority-sorted list by load gives the
lexicographic (load, priority) order -/

theorem orderedInsert_sorted_lex {α : Type} (q p : α → α → Prop) [DecidableRel q]
    (qtot : ∀ a b, q a b ∨ q b a) (qtrans : ∀ a b c, q a b → q b c → q a c)
    (a : α) (l : List α) (hs : l.Sorted q)
    (hp : l.Pairwise (fun x y => q x y ∧ (q y x → p x y)))
    (ha : ∀ b ∈ l, p a b) :
    (l.orderedInsert q a).Sorted q ∧
    (l.orderedInsert q a).Pairwise (fun x y => q x y ∧ (q y x → p x y)) := by
  induction l with
  | nil =>
    constructor <;> simp [List.orderedInsert]
  | cons b l ih =>
    rw [List.sorted_cons] at hs
    obtain ⟨hb, hsl⟩ := hs
    rw [List.pairwise_cons] at hp
    obtain ⟨hpb, hpl⟩ := hp
    have hal : ∀ y ∈ l, p a y := fun y hy => ha y (List.mem_cons_of_mem _ hy)
    by_cases hq : q a b
    · simp only [List.orderedInsert, if_pos hq]
      have haq : ∀ y ∈ b :: l, q a y := by
        intro y hy
        rcases List.mem_cons.mp hy with h | h
        · exact h ▸ hq
        · exact qtrans a b y hq (hb y h)
      constructor
      · rw [List.sorted_cons]
        exact ⟨haq, List.sorted_cons.mpr ⟨hb, hsl⟩⟩
      · rw [List.pairwise_cons]
        refine ⟨fun y hy => ⟨haq y hy, fun _ => ha y hy⟩, ?_⟩
        rw [List.pairwise_cons]
        exact ⟨hpb, hpl⟩
    · have hba : q b a := (qtot a b).resolve_left hq
      simp only [List.orderedInsert, if_neg hq]
      obtain ⟨ihs, ihp⟩ := ih hsl hpl hal
      have hmem : ∀ y ∈ l.orderedInsert q a, y = a ∨ y ∈ l := by
        intro y hy
        exact (List.mem_orderedInsert q).mp hy
      constructor
      · rw [List.sorted_cons]
        refine ⟨fun y hy => ?_, ihs⟩
        rcases hmem y hy with h | h
        · exact h ▸ hba
        · exact hb y h
      · rw [List.pairwise_cons]
        refine ⟨fun y hy => ?_, ihp⟩
        rcases hmem y hy with h | h
        · subst h
          exact ⟨hba, fun hab => absurd hab hq⟩
        · exact hpb y h

theorem insertionSort_sorted_lex {α : Type} (q p : α → α → Prop) [DecidableRel q]
    (qtot : ∀ a b, q a b ∨ q b a) (qtrans : ∀ a b c, q a b → q b c → q a c)
    (l : List α) (hp : l.Pairwise p) :
    (l.insertionSort q).Sorted q ∧
    (l.insertionSort q).Pairwise (fun x y => q x y ∧ (q y x → p x y)) := by
  induction l with
  | nil => constructor <;> simp
  | cons a l ih =>
    rw [List.pairwise_cons] at hp
    obtain ⟨hpa, hpl⟩ := hp
    obtain ⟨ihs, ihp⟩ := ih hpl
    have ha : ∀ b ∈ l.insertionSort q, p a b := fun b hb =>
      hpa b ((List.mem_insertionSort q).mp hb)
    exact orderedInsert_sorted_lex q p qtot qtrans a _ ihs ihp ha

/-- The composed ranking of `get_clusters` is pairwise ordered by load with
priority breaking ties. -/
theorem sortInfo_pairwise_lex (l : List ClusterInfo) :
    (sortInfoByLoad (sortInfoByPriority l)).Pairwise
      (fun x y => x.load ≤ y.load ∧
        (x.load = y.load → x.cluster.priority ≤ y.cluster.priority)) := by
  have htriv : l.Pairwise (fun _ _ => True) := by
    induction l with
    | nil => exact List.Pairwise.nil
    | cons a l ih => exact List.Pairwise.cons (fun _ _ => trivial) ih
  have h1 := insertionSort_sorted_lex
    (fun a b : ClusterInfo => a.cluster.priority ≤ b.cluster.priority)
    (fun _ _ => True)
    (fun a b => Nat.le_total a.cluster.priority b.cluster.priority)
    (fun _ _ _ => Nat.le_trans) l htriv
  have hp : (sortInfoByPriority l).Pairwise
      (fun a b : ClusterInfo => a.cluster.priority ≤ b.cluster.priority) := h1.1
  have h2 := insertionSort_sorted_lex
    (fun a b : ClusterInfo => a.load ≤ b.load)
    (fun a b : ClusterInfo => a.cluster.priority ≤ b.cluster.priority)
    (fun a b => le_total a.load b.load)
    (fun _ _ _ => le_trans) (sortInfoByPriority l) hp
  refine h2.2.imp ?_
  intro x y hxy
  exact ⟨hxy.1, fun he => hxy.2 (le_of_eq he.symm)⟩

/-! ## Lemmas about one scan round of get_clusters -/

theorem scanOne_ctxs (env : Env) (fd : Int) (pf : String) (s : ScanSt) (c : Cluster) :
    ((scanOne env fd pf s c).st.ctxs = s.st.ctxs) ∨
    ((scanOne env fd pf s c).st.ctxs = fun n =>
      if n = c.name then (s.st.ctxs n).tryAgainLater (env.clock (s.st.tick + 1)) fd
      else s.st.ctxs n) := by
  simp only [scanOne]
  split
  · exact Or.inl rfl
  · split
    · exact Or.inl rfl
    · split
      · exact Or.inl rfl
      · exact Or.inr rfl

theorem scanOne_possible (env : Env) (fd : Int) (pf : String) (s : ScanSt) (c : Cluster) :
    (scanOne env fd pf s c).possible = s.possible ∨
    ((s.st.ctxs c.name).isDead = false ∧ ∃ ld : ℚ,
      (scanOne env fd pf s c).possible = s.possible ++ [⟨c, pf, ld⟩]) := by
  simp only [scanOne]
  split
  · exact Or.inl rfl
  · split
    · exact Or.inl rfl
    · split
      · rename_i hdead _ _ _
        exact Or.inr ⟨by simpa using hdead, _, rfl⟩
      · exact Or.inl rfl

theorem tryAgainLater_fails_le (c : RetryCtx) (now s : Int) :
    c.fails ≤ (c.tryAgainLater now s).fails ∧
    (c.tryAgainLater now s).maxClusterFails = c.maxClusterFails := by
  unfold RetryCtx.tryAgainLater
  split
  · exact ⟨le_refl _, rfl⟩
  · exact ⟨Nat.le_succ _, rfl⟩

theorem scanOne_ctxs_mono (env : Env) (fd : Int) (pf : String) (s : ScanSt)
    (c : Cluster) (n : String) :
    (s.st.ctxs n).fails ≤ ((scanOne env fd pf s c).st.ctxs n).fails ∧
    ((scanOne env fd pf s c).st.ctxs n).maxClusterFails = (s.st.ctxs n).maxClusterFails := by
  rcases scanOne_ctxs env fd pf s c with h | h
  · rw [h]; exact ⟨le_refl _, rfl⟩
  · rw [h]
    by_cases hn : n = c.name
    · simp only [hn, if_pos rfl]
      exact tryAgainLater_fails_le _ _ _
    · simp [hn]

theorem scanList_ctxs_mono (env : Env) (fd : Int) (pf : String)
    (l : List Cluster) (s : ScanSt) (n : String) :
    (s.st.ctxs n).fails ≤ ((l.foldl (scanOne env fd pf) s).st.ctxs n).fails ∧
    ((l.foldl (scanOne env fd pf) s).st.ctxs n).maxClusterFails
      = (s.st.ctxs n).maxClusterFails := by
  induction l generalizing s with
  | nil => exact ⟨le_refl _, rfl⟩
  | cons c l ih =>
    have h1 := scanOne_ctxs_mono env fd pf s c n
    have h2 := ih (scanOne env fd pf s c)
    exact ⟨le_trans h1.1 h2.1, h2.2.trans h1.2⟩

theorem isDead_mono {c c' : RetryCtx} (hf : c.fails ≤ c'.fails)
    (hm : c'.maxClusterFails = c.maxClusterFails) (hd : c.isDead = true) :
    c'.isDead = true := by
  unfold RetryCtx.isDead at hd ⊢
  rw [hm]
  exact decide_eq_true (le_trans (of_decide_eq_true hd) hf)

/-- A cluster that is dead at the start of a scan round stays dead and is
never among the round's newly collected candidates. -/
theorem scanList_dead_excluded (env : Env) (fd : Int) (pf : String)
    (l : List Cluster) (s : ScanSt) (cn : String)
    (hd : (s.st.ctxs cn).isDead = true) :
    ((l.foldl (scanOne env fd pf) s).st.ctxs cn).isDead = true ∧
    ∀ x ∈ (l.foldl (scanOne env fd pf) s).possible,
      x ∈ s.possible ∨ x.cluster.name ≠ cn := by
  induction l generalizing s with
  | nil => exact ⟨hd, fun x hx => Or.inl hx⟩
  | cons c l ih =>
    have hmono := scanOne_ctxs_mono env fd pf s c cn
    have hd' : ((scanOne env fd pf s c).st.ctxs cn).isDead = true :=
      isDead_mono hmono.1 hmono.2 hd
    obtain ⟨ihd, ihp⟩ := ih (scanOne env fd pf s c) hd'
    refine ⟨ihd, fun x hx => ?_⟩
    rcases ihp x hx with h | h
    · rcases scanOne_possible env fd pf s c with hp | ⟨hde, ld, hp⟩
      · exact Or.inl (hp ▸ h)
      · rw [hp] at h
        rcases List.mem_append.mp h with h' | h'
        · exact Or.inl h'
        · right
          have hx' : x = ⟨c, pf, ld⟩ := by simpa using h'
          subst hx'
          intro hcn
          rw [hcn] at hde
          rw [hde] at hd
          exact Bool.false_ne_true hd
    · exact Or.inr h

/-! ## One fully successful round (all clusters usable, all queries answer) -/

theorem scanOne_all_ok (env : Env) (fd : Int) (pf : String) (s : ScanSt)
    (c : Cluster) (n : Nat)
    (hw : (s.st.ctxs c.name).inRetryWait (env.clock s.st.tick) = false)
    (hd : (s.st.ctxs c.name).isDead = false)
    (hq : env.loadQ s.st.q c.name = some n) :
    scanOne env fd pf s c =
      { st := { s.st with tick := s.st.tick + 1, q := s.st.q + 1 },
        possible := s.possible ++
          [⟨c, pf, (n : ℚ) / (c.maxConcurrentBuilds : ℚ)⟩] } := by
  simp [scanOne, hw, hd, hq]

theorem scanList_all_ok (env : Env) (fd : Int) (pf : String)
    (l : List Cluster) (s : ScanSt) (ld : String → Nat)
    (hd : ∀ c ∈ l, (s.st.ctxs c.name).isDead = false)
    (hw : ∀ c ∈ l, ∀ i, (s.st.ctxs c.name).inRetryWait (env.clock i) = false)
    (hq : ∀ i : Nat, ∀ c ∈ l, env.loadQ i c.name = some (ld c.name)) :
    l.foldl (scanOne env fd pf) s =
      { st := { s.st with tick := s.st.tick + l.length, q := s.st.q + l.length },
        possible := s.possible ++
          l.map (fun c => ⟨c, pf, (ld c.name : ℚ) / (c.maxConcurrentBuilds : ℚ)⟩) } := by
  induction l generalizing s with
  | nil => simp
  | cons c l ih =>
    have hs1 := scanOne_all_ok env fd pf s c (ld c.name)
      (hw c (List.mem_cons_self c l) s.st.tick)
      (hd c (List.mem_cons_self c l))
      (hq s.st.q c (List.mem_cons_self c l))
    rw [List.foldl_cons, hs1]
    rw [ih]
    · have ht : s.st.tick + 1 + l.length = s.st.tick + (c :: l).length := by
        simp [List.length_cons]; omega
      have hqn : s.st.q + 1 + l.length = s.st.q + (c :: l).length := by
        simp [List.length_cons]; omega
      simp only [ht, hqn, List.map_cons, List.append_assoc, List.singleton_append]
    · intro c' hc'; exact hd c' (List.mem_cons_of_mem _ hc')
    · intro c' hc' i; exact hw c' (List.mem_cons_of_mem _ hc') i
    · intro i c' hc'; exact hq i c' (List.mem_cons_of_mem _ hc')
theorem gcLoop_exit (env : Env) (fd : Int) (pf : String) (cl : List Cluster)
    (fuel : Nat) (cands : List Cluster) (possible : List ClusterInfo) (st : SelSt)
    (h : possible ≠ []) :
    gcLoop env fd pf cl (fuel + 1) cands possible st = some (.ok (possible, st)) := by
  have hp : possible.isEmpty = false := by
    cases possible with
    | nil => exact absurd rfl h
    | cons a l => rfl
  simp [gcLoop, hp]

theorem gcLoop_enter (env : Env) (fd : Int) (pf : String) (cl : List Cluster)
    (fuel : Nat) (cands : List Cluster) (st : SelSt) (t' : Nat)
    (hc : cands.isEmpty = false)
    (hw : waitForAnyCluster cl st.ctxs st.tick = .ok t') :
    gcLoop env fd pf cl (fuel + 1) cands [] st =
      gcLoop env fd pf cl fuel
        (cands.filter (fun c =>
          !((scanRound env fd pf cands
              { st := { st with tick := t' }, possible := [] }).st.ctxs c.name).isDead))
        (scanRound env fd pf cands
          { st := { st with tick := t' }, possible := [] }).possible
        (scanRound env fd pf cands
          { st := { st with tick := t' }, possible := [] }).st := by
  simp [gcLoop, hc, hw]

theorem gcLoop_allDead (env : Env) (fd : Int) (pf : String) (cl : List Cluster)
    (fuel : Nat) (cands : List Cluster) (st : SelSt)
    (hc : cands.isEmpty = false)
    (hw : waitForAnyCluster cl st.ctxs st.tick = .error allClustersFailedMsg) :
    gcLoop env fd pf cl (fuel + 1) cands [] st = some (.error allClustersFailedMsg) := by
  simp [gcLoop, hc, hw]

theorem getClusters_of_gcLoop (env : Env) (fd : Int) (pf : String)
    (clusters : List Cluster) (fuel : Nat) (st : SelSt)
    (P : List ClusterInfo) (st2 : SelSt)
    (h : gcLoop env fd pf clusters fuel clusters [] st = some (.ok (P, st2))) :
    getClusters env fd pf clusters fuel st =
      some (.ok (sortInfoByLoad (sortInfoByPriority P), st2)) := by
  unfold getClusters
  rw [h]

theorem getClusters_of_gcLoop_err (env : Env) (fd : Int) (pf : String)
    (clusters : List Cluster) (fuel : Nat) (st : SelSt) (e : String)
    (h : gcLoop env fd pf clusters fuel clusters [] st = some (.error e)) :
    getClusters env fd pf clusters fuel st = some (.error e) := by
  unfold getClusters
  rw [h]

theorem getClusters_all_ok (env : Env) (fd : Int) (pf : String)
    (clusters : List Cluster) (st : SelSt) (ld : String → Nat) (n : Nat)
    (hne : clusters ≠ [])
    (hd : ∀ c ∈ clusters, (st.ctxs c.name).isDead = false)
    (hw : ∀ c ∈ clusters, ∀ i, (st.ctxs c.name).inRetryWait (env.clock i) = false)
    (hq : ∀ i : Nat, ∀ c ∈ clusters, env.loadQ i c.name = some (ld c.name)) :
    ∃ st2 : SelSt,
      getClusters env fd pf clusters (n + 2) st =
        some (.ok (sortInfoByLoad (sortInfoByPriority
          ((sortByPriority clusters).map
            (fun c => ⟨c, pf, (ld c.name : ℚ) / (c.maxConcurrentBuilds : ℚ)⟩))), st2)) ∧
      st2.ctxs = st.ctxs := by
  obtain ⟨c0, hc0⟩ := List.exists_mem_of_ne_nil clusters hne
  have hall : clusters.all (fun c => (st.ctxs c.name).isDead) = false := by
    by_contra hcon
    have h1 : clusters.all (fun c => (st.ctxs c.name).isDead) = true := by
      cases h : clusters.all (fun c => (st.ctxs c.name).isDead)
      · exact absurd h hcon
      · rfl
    have h2 := List.all_eq_true.mp h1 c0 hc0
    rw [hd c0 hc0] at h2
    exact Bool.false_ne_true h2
  have hwait : waitForAnyCluster clusters st.ctxs st.tick = .ok (st.tick + 1) := by
    simp [waitForAnyCluster, hall]
  have hCne : clusters.isEmpty = false := by
    cases clusters with
    | nil => exact absurd rfl hne
    | cons a l => rfl
  have hmemSort : ∀ c ∈ sortByPriority clusters, c ∈ clusters := by
    intro c hc
    exact (List.mem_insertionSort _).mp hc
  have hscan := scanList_all_ok env fd pf (sortByPriority clusters)
    { st := { st with tick := st.tick + 1 }, possible := [] } ld
    (fun c hc => hd c (hmemSort c hc))
    (fun c hc i => hw c (hmemSort c hc) i)
    (fun i c hc => hq i c (hmemSort c hc))
  have hperm : (sortByPriority clusters).Perm clusters :=
    List.perm_insertionSort _ clusters
  have hSne : (sortByPriority clusters) ≠ [] := by
    intro h
    have hlen : (sortByPriority clusters).length = clusters.length := hperm.length_eq
    rw [h] at hlen
    cases clusters with
    | nil => exact hne rfl
    | cons a l => simp at hlen
  have hscanR := hscan
  have hPne : (sortByPriority clusters).map
      (fun c => (⟨c, pf, (ld c.name : ℚ) / (c.maxConcurrentBuilds : ℚ)⟩ : ClusterInfo)) ≠ [] := by
    intro h
    exact hSne (List.map_eq_nil_iff.mp h)
  have hstep := gcLoop_enter env fd pf clusters (n + 1) clusters st (st.tick + 1)
    hCne hwait
  unfold scanRound at hstep
  rw [hscanR] at hstep
  simp only [List.nil_append] at hstep
  have hfilter : clusters.filter (fun c => !(st.ctxs c.name).isDead) = clusters := by
    apply List.filter_eq_self.mpr
    intro c hc
    simp [hd c hc]
  rw [hfilter] at hstep
  have hexit := gcLoop_exit env fd pf clusters n clusters
    ((sortByPriority clusters).map
      (fun c => (⟨c, pf, (ld c.name : ℚ) / (c.maxConcurrentBuilds : ℚ)⟩ : ClusterInfo)))
    { st with
        tick := st.tick + 1 + (sortByPriority clusters).length,
        q := st.q + (sortByPriority clusters).length } hPne
  rw [hexit] at hstep
  exact ⟨_, getClusters_of_gcLoop env fd pf clusters (n + 2) st _ _ hstep, rfl⟩

theorem tryClusters_attempted_head (env : Env) (fld : Int)
    (l : List ClusterInfo) (st : SelSt) :
    (tryClusters env fld l st).attempted.head? =
      l.head?.map (fun ci => ci.cluster.name) := by
  cases l with
  | nil => rfl
  | cons ci rest =>
    simp only [tryClusters]
    cases hd : (doWorkerBuild env st.a ci).fin <;> simp [hd]

/-- Claim C1: when every candidate cluster answers its load query
successfully and is usable (non-dead, non-backoff), `get_clusters` returns
the candidates ranked with computed load ascending as the dominant key and
configured priority ascending breaking ties among equal loads; the head of
the ranking minimizes (load, priority) and is the cluster the launch loop
attempts first. -/
theorem c1_load_dominant_ranking (env : Env) (fd fld : Int) (pf : String)
    (clusters : List Cluster) (st : SelSt) (ld : String → Nat) (n : Nat)
    (hne : clusters ≠ [])
    (hd : ∀ c ∈ clusters, (st.ctxs c.name).isDead = false)
    (hw : ∀ c ∈ clusters, ∀ i, (st.ctxs c.name).inRetryWait (env.clock i) = false)
    (hq : ∀ i : Nat, ∀ c ∈ clusters, env.loadQ i c.name = some (ld c.name)) :
    ∃ ret st2,
      getClusters env fd pf clusters (n + 2) st = some (.ok (ret, st2)) ∧
      ret.Pairwise (fun x y => x.load ≤ y.load ∧
        (x.load = y.load → x.cluster.priority ≤ y.cluster.priority)) ∧
      ret.Perm (clusters.map (fun c =>
        ⟨c, pf, (ld c.name : ℚ) / (c.maxConcurrentBuilds : ℚ)⟩)) ∧
      (∀ h x, ret.head? = some h → x ∈ ret →
        h.load ≤ x.load ∧ (h.load = x.load → h.cluster.priority ≤ x.cluster.priority)) ∧
      (∀ st3, (tryClusters env fld ret st3).attempted.head? =
        ret.head?.map (fun ci => ci.cluster.name)) := by
  obtain ⟨st2, hgc, -⟩ := getClusters_all_ok env fd pf clusters st ld n hne hd hw hq
  set f : Cluster → ClusterInfo :=
    fun c => ⟨c, pf, (ld c.name : ℚ) / (c.maxConcurrentBuilds : ℚ)⟩ with hf
  set ret := sortInfoByLoad (sortInfoByPriority ((sortByPriority clusters).map f))
    with hret
  have hpw : ret.Pairwise (fun x y => x.load ≤ y.load ∧
      (x.load = y.load → x.cluster.priority ≤ y.cluster.priority)) :=
    sortInfo_pairwise_lex _
  refine ⟨ret, st2, hgc, hpw, ?_, ?_, ?_⟩
  · have h1 : ret.Perm ((sortByPriority clusters).map f) := by
      exact (List.perm_insertionSort _ _).trans (List.perm_insertionSort _ _)
    have h2 : (sortByPriority clusters).Perm clusters :=
      List.perm_insertionSort _ clusters
    exact h1.trans (h2.map f)
  · intro h x hh hx
    cases hr : ret with
    | nil => rw [hr] at hh; exact absurd hh (by simp)
    | cons a t =>
      rw [hr] at hh
      have ha : h = a := by
        have := hh
        simp at this
        exact this.symm
      subst ha
      rw [hr] at hx hpw
      rcases List.mem_cons.mp hx with h' | h'
      · subst h'
        exact ⟨le_refl _, fun _ => le_refl _⟩
      · exact (List.pairwise_cons.mp hpw).1 x h'
  · intro st3
    exact tryClusters_attempted_head env fld ret st3

/-- Witness for C1: two equal-priority clusters with loads 1/2 and 4/5. -/
theorem c1_witness :
    ∃ ret st2,
      getClusters
        { clock := fun _ => 0,
          loadQ := fun _ nm => if nm = "b" then some 4 else some 1,
          createR := fun _ => .osbsExc "e", monitorR := fun _ => .exc "e",
          cancelR := fun _ => .ok, podQ := fun _ => .caughtExc }
        15 "x86_64" [⟨"a", 0, 2⟩, ⟨"b", 0, 5⟩] (0 + 2)
        { tick := 0, q := 0, a := 0, ctxs := fun _ => RetryCtx.fresh 20 } =
        some (.ok (ret, st2)) ∧
      ret.Pairwise (fun x y => x.load ≤ y.load ∧
        (x.load = y.load → x.cluster.priority ≤ y.cluster.priority)) ∧
      ret.Perm ([⟨"a", 0, 2⟩, ⟨"b", 0, 5⟩].map (fun c =>
        ⟨c, "x86_64", ((if c.name = "b" then 4 else 1 : Nat) : ℚ) /
          (c.maxConcurrentBuilds : ℚ)⟩)) ∧
      (∀ h x, ret.head? = some h → x ∈ ret →
        h.load ≤ x.load ∧ (h.load = x.load → h.cluster.priority ≤ x.cluster.priority)) ∧
      (∀ st3, (tryClusters
        { clock := fun _ => 0,
          loadQ := fun _ nm => if nm = "b" then some 4 else some 1,
          createR := fun _ => .osbsExc "e", monitorR := fun _ => .exc "e",
          cancelR := fun _ => .ok, podQ := fun _ => .caughtExc }
        10 ret st3).attempted.head? =
        ret.head?.map (fun ci => ci.cluster.name)) :=
  c1_load_dominant_ranking _ 15 10 "x86_64" _ _
    (fun nm => if nm = "b" then 4 else 1) 0
    (by simp)
    (fun c _ => rfl)
    (fun c _ i => rfl)
    (fun i c _ => by by_cases h : c.name = "b" <;> simp [h])

/-- Claim C3: `record_failure` (`try_again_later`) increments `fails` and
sets the backoff deadline only while the cluster is not yet dead; once
`fails >= max_cluster_fails` further calls are no-ops, so `fails` never
exceeds `max_cluster_fails`, and a dead cluster stays dead and is excluded
from every later selection round. -/
theorem c3_retry_context_invariants :
    (∀ (c : RetryCtx) (now s : Int), c.isDead = true → c.tryAgainLater now s = c) ∧
    (∀ (c : RetryCtx) (now s : Int), c.isDead = false →
      (c.tryAgainLater now s).fails = c.fails + 1 ∧
      (c.tryAgainLater now s).retryAt = now + s) ∧
    (∀ (c : RetryCtx) (now s : Int), c.fails ≤ c.maxClusterFails →
      (c.tryAgainLater now s).fails ≤ c.maxClusterFails) ∧
    (∀ (env : Env) (fd : Int) (pf : String) (cands : List Cluster)
        (s : ScanSt) (cn : String),
      (s.st.ctxs cn).isDead = true →
      ((scanRound env fd pf cands s).st.ctxs cn).isDead = true ∧
      ∀ x ∈ (scanRound env fd pf cands s).possible,
        x ∈ s.possible ∨ x.cluster.name ≠ cn) := by
  refine ⟨?_, ?_, ?_, ?_⟩
  · intro c now s h
    simp [RetryCtx.tryAgainLater, h]
  · intro c now s h
    simp [RetryCtx.tryAgainLater, h]
  · intro c now s h
    unfold RetryCtx.tryAgainLater
    split
    · exact h
    · rename_i hnd
      have hnle : ¬ c.maxClusterFails ≤ c.fails := by
        intro hle
        exact hnd (by simp [RetryCtx.isDead, hle])
      show c.fails + 1 ≤ c.maxClusterFails
      omega
  · intro env fd pf cands s cn h
    unfold scanRound
    exact scanList_dead_excluded env fd pf (sortByPriority cands) s cn h

/-- Witness for C3 at a concrete context (`max_cluster_fails = 3`). -/
theorem c3_witness :
    RetryCtx.tryAgainLater ⟨3, 0, 3⟩ 5 7 = ⟨3, 0, 3⟩ ∧
    (RetryCtx.tryAgainLater ⟨1, 0, 3⟩ 5 7).fails = 2 ∧
    (RetryCtx.tryAgainLater ⟨1, 0, 3⟩ 5 7).retryAt = 12 ∧
    (RetryCtx.tryAgainLater ⟨2, 0, 3⟩ 5 7).fails ≤ 3 :=
  ⟨c3_retry_context_invariants.1 ⟨3, 0, 3⟩ 5 7 rfl,
   (c3_retry_context_invariants.2.1 ⟨1, 0, 3⟩ 5 7 rfl).1,
   (c3_retry_context_invariants.2.1 ⟨1, 0, 3⟩ 5 7 rfl).2,
   c3_retry_context_invariants.2.2.1 ⟨2, 0, 3⟩ 5 7 (by decide)⟩

/-! ## Task-level and run-level helper lemmas -/

theorem runTasks_of_ok (te : String → TaskEnv) (gf lf : Nat) (fd fld : Int)
    (mf : Nat) (ps : List String) (ws : String → List WBI)
    (h : ∀ p ∈ ps, selectAndStartCluster (te p).env gf lf fd fld mf p
      (te p).clusters = some (ws p, .ok ())) :
    runTasks te gf lf fd fld mf ps =
      some (ps.map (fun p => (ws p, Except.ok ()))) := by
  induction ps with
  | nil => rfl
  | cons p ps ih =>
    simp only [runTasks]
    rw [h p (List.mem_cons_self p ps)]
    rw [ih (fun p' hp' => h p' (List.mem_cons_of_mem _ hp'))]
    rfl

theorem firstTaskExc_of_ok (l : List (List WBI × Except TaskExc Unit))
    (h : ∀ r ∈ l, r.2 = .ok ()) : firstTaskExc l = none := by
  induction l with
  | nil => rfl
  | cons r l ih =>
    have hr := h r (List.mem_cons_self r l)
    obtain ⟨ws, e⟩ := r
    simp only at hr
    subst hr
    exact ih (fun r' hr' => h r' (List.mem_cons_of_mem _ hr'))

theorem runAggregate_of_exc (te : String → TaskEnv)
    (results : List (List WBI × Except TaskExc Unit)) (e : TaskExc)
    (hft : firstTaskExc results = some e) :
    runAggregate te results = .raised e.toRunExc ((results.map (·.1)).flatten) := by
  unfold runAggregate
  dsimp only
  rw [hft]

theorem runAggregate_of_ok (te : String → TaskEnv)
    (results : List (List WBI × Except TaskExc Unit))
    (frs : List (String × List (String × Json)))
    (hft : firstTaskExc results = none)
    (hcf : collectFailReasons te ((results.map (·.1)).flatten) = .ok frs) :
    runAggregate te results =
      if frs.isEmpty then .success (buildInfoMap ((results.map (·.1)).flatten))
      else .pluginFailed (jsonOfFailReasons frs)
        (buildInfoMap ((results.map (·.1)).flatten)) := by
  unfold runAggregate
  dsimp only
  rw [hft, hcf]

theorem runAggregate_of_diag_err (te : String → TaskEnv)
    (results : List (List WBI × Except TaskExc Unit)) (pe : PyErr)
    (hft : firstTaskExc results = none)
    (hcf : collectFailReasons te ((results.map (·.1)).flatten) = .error pe) :
    runAggregate te results = .raised (.diagErr pe) ((results.map (·.1)).flatten) := by
  unfold runAggregate
  dsimp only
  rw [hft, hcf]

theorem runAggregate_not_task_raise (te : String → TaskEnv)
    (results : List (List WBI × Except TaskExc Unit))
    (hft : firstTaskExc results = none) :
    ∀ m w, runAggregate te results ≠ .raised (.unknownPlatform m) w ∧
           runAggregate te results ≠ .raised (.otherExc m) w := by
  intro m w
  cases hcf : collectFailReasons te ((results.map (·.1)).flatten) with
  | error pe =>
    rw [runAggregate_of_diag_err te results pe hft hcf]
    exact ⟨by simp, by simp⟩
  | ok frs =>
    rw [runAggregate_of_ok te results frs hft hcf]
    by_cases hfr : frs.isEmpty = true
    · simp [hfr]
    · simp [hfr]

theorem runPlugin_of_tasks (te : String → TaskEnv) (gf lf : Nat)
    (fd fld : Int) (mf : Nat) (platforms : List String)
    (results : List (List WBI × Except TaskExc Unit))
    (hne : ¬ platforms.isEmpty = true)
    (hrt : runTasks te gf lf fd fld mf platforms = some results) :
    runPlugin te gf lf fd fld mf platforms = some (runAggregate te results) := by
  rw [runPlugin, if_neg hne, hrt]

/-- Claim C2: once every cluster for a platform has reached
`max_cluster_fails`, the retry wait fails with the
`AllClustersFailedException` message "Could not find appropriate cluster
for worker build."; the platform task catches it, records a placeholder
`WorkerBuildInfo` with no backing build whose failure reason is that
message, returns normally, and a task that ends this way never raises an
orchestration-level error out of `run` (sibling tasks are unaffected). -/
theorem c2_all_clusters_failed (gf lf : Nat) :
    (∀ (clusters : List Cluster) (ctxs : String → RetryCtx) (tick : Nat),
      (∀ c ∈ clusters, (ctxs c.name).isDead = true) →
      waitForAnyCluster clusters ctxs tick = .error allClustersFailedMsg) ∧
    (∀ (env : Env) (fd fld : Int) (pf : String) (clusters : List Cluster)
        (st : SelSt),
      clusters ≠ [] →
      (∀ c ∈ clusters, (st.ctxs c.name).isDead = true) →
      selectLoop env (gf + 1) fd fld pf clusters (lf + 1) st =
        some ([⟨none, none, pf, some allClustersFailedMsg⟩], st, .ok ())) ∧
    (∀ (podQ : String → PodTryRes) (pf : String),
      getFailReason podQ ⟨none, none, pf, some allClustersFailedMsg⟩ =
        .ok [("general", .str allClustersFailedMsg)]) ∧
    (∀ (te : String → TaskEnv) (fd fld : Int) (mf : Nat)
        (platforms : List String) (ws : String → List WBI) (out : RunOut),
      (∀ p ∈ platforms, selectAndStartCluster (te p).env gf lf fd fld mf p
        (te p).clusters = some (ws p, .ok ())) →
      runPlugin te gf lf fd fld mf platforms = some out →
      ∀ m w, out ≠ .raised (.unknownPlatform m) w ∧
             out ≠ .raised (.otherExc m) w) := by
  refine ⟨?_, ?_, ?_, ?_⟩
  · intro clusters ctxs tick h
    have hall : clusters.all (fun c => (ctxs c.name).isDead) = true :=
      List.all_eq_true.mpr h
    simp [waitForAnyCluster, hall]
  · intro env fd fld pf clusters st hne hdead
    have hCne : clusters.isEmpty = false := by
      cases clusters with
      | nil => exact absurd rfl hne
      | cons a l => rfl
    have hall : clusters.all (fun c => (st.ctxs c.name).isDead) = true :=
      List.all_eq_true.mpr hdead
    have hw : waitForAnyCluster clusters st.ctxs st.tick =
        .error allClustersFailedMsg := by
      simp [waitForAnyCluster, hall]
    have hloop := gcLoop_allDead env fd pf clusters gf clusters st hCne hw
    have hgc := getClusters_of_gcLoop_err env fd pf clusters (gf + 1) st
      allClustersFailedMsg hloop
    simp only [selectLoop]
    rw [hgc]
  · intro podQ pf
    rfl
  · intro te fd fld mf platforms ws out h hrun m w
    by_cases hps : platforms.isEmpty = true
    · rw [runPlugin, if_pos hps] at hrun
      have hout : out = .raised .noPlatformsErr [] := by
        injection hrun with h'
        exact h'.symm
      subst hout
      exact ⟨by simp, by simp⟩
    · have hrt := runTasks_of_ok te gf lf fd fld mf platforms ws h
      rw [runPlugin, if_neg hps, hrt] at hrun
      have hout : out = runAggregate te (platforms.map (fun p => (ws p, Except.ok ()))) := by
        injection hrun with h'
        exact h'.symm
      subst hout
      have hft : firstTaskExc (platforms.map (fun p => (ws p, Except.ok ()))) = none := by
        apply firstTaskExc_of_ok
        intro r hr
        simp only [List.mem_map] at hr
        obtain ⟨p, -, h'⟩ := hr
        rw [← h']
      exact runAggregate_not_task_raise te _ hft m w

/-- Witness for C2: one cluster, already dead (fresh context with
`max_cluster_fails = 0`). -/
theorem c2_witness :
    waitForAnyCluster [⟨"a", 0, 2⟩] (fun _ => RetryCtx.fresh 0) 0 =
      .error allClustersFailedMsg ∧
    selectLoop
      { clock := fun _ => 0, loadQ := fun _ _ => some 0,
        createR := fun _ => .osbsExc "e", monitorR := fun _ => .exc "e",
        cancelR := fun _ => .ok, podQ := fun _ => .caughtExc }
      (0 + 1) 15 10 "ppc64le" [⟨"a", 0, 2⟩] (0 + 1)
      { tick := 0, q := 0, a := 0, ctxs := fun _ => RetryCtx.fresh 0 } =
      some ([⟨none, none, "ppc64le", some allClustersFailedMsg⟩],
        { tick := 0, q := 0, a := 0, ctxs := fun _ => RetryCtx.fresh 0 }, .ok ()) ∧
    getFailReason (fun _ => .caughtExc)
      ⟨none, none, "ppc64le", some allClustersFailedMsg⟩ =
      .ok [("general", .str allClustersFailedMsg)] :=
  ⟨(c2_all_clusters_failed 0 0).1 [⟨"a", 0, 2⟩] (fun _ => RetryCtx.fresh 0) 0
      (fun c _ => rfl),
   (c2_all_clusters_failed 0 0).2.1 _ 15 10 "ppc64le" [⟨"a", 0, 2⟩] _
      (by simp) (fun c _ => rfl),
   (c2_all_clusters_failed 0 0).2.2.1 (fun _ => .caughtExc) "ppc64le"⟩

/-! ## One WorkerBuildInfo per terminating task path -/

theorem doWorkerBuild_ok_append (env : Env) (a : Nat) (ci : ClusterInfo)
    (h : (doWorkerBuild env a ci).fin = .ok) :
    ∃ w, (doWorkerBuild env a ci).appended = [w] ∧ w.platform = ci.platform := by
  revert h
  unfold doWorkerBuild
  cases env.createR a with
  | osbsExc m => intro h; simp at h
  | otherExc m => intro _; exact ⟨_, rfl, rfl⟩
  | ok b =>
    cases env.monitorR a with
    | ok b' => intro _; exact ⟨_, rfl, rfl⟩
    | exc m =>
      dsimp only
      split
      · intro _; exact ⟨_, rfl, rfl⟩
      · cases env.cancelR a with
        | ok => intro _; exact ⟨_, rfl, rfl⟩
        | osbsExc me => intro _; exact ⟨_, rfl, rfl⟩
        | otherExc me => intro _; exact ⟨_, rfl, rfl⟩

theorem doWorkerBuild_other_append (env : Env) (a : Nat) (ci : ClusterInfo)
    (m : String) (h : (doWorkerBuild env a ci).fin = .otherRaise m) :
    ∃ w, (doWorkerBuild env a ci).appended = [w] ∧ w.platform = ci.platform := by
  revert h
  unfold doWorkerBuild
  cases env.createR a with
  | osbsExc m' => intro h; simp at h
  | otherExc m' => intro _; exact ⟨_, rfl, rfl⟩
  | ok b =>
    cases env.monitorR a with
    | ok b' => intro _; exact ⟨_, rfl, rfl⟩
    | exc m' =>
      dsimp only
      split
      · intro _; exact ⟨_, rfl, rfl⟩
      · cases env.cancelR a with
        | ok => intro _; exact ⟨_, rfl, rfl⟩
        | osbsExc me => intro _; exact ⟨_, rfl, rfl⟩
        | otherExc me => intro _; exact ⟨_, rfl, rfl⟩

theorem doWorkerBuild_osbs_append (env : Env) (a : Nat) (ci : ClusterInfo)
    (m : String) (h : (doWorkerBuild env a ci).fin = .osbsRaise m) :
    (doWorkerBuild env a ci).appended = [] := by
  revert h
  unfold doWorkerBuild
  cases env.createR a with
  | osbsExc m' => intro _; rfl
  | otherExc m' => intro h; simp at h
  | ok b =>
    cases env.monitorR a with
    | ok b' => intro h; simp at h
    | exc m' =>
      dsimp only
      split
      · intro h; simp at h
      · cases env.cancelR a with
        | ok => intro h; simp at h
        | osbsExc me => intro h; simp at h
        | otherExc me => intro h; simp at h

theorem tryClusters_shape (env : Env) (fld : Int) (pf : String) :
    ∀ (l : List ClusterInfo) (st : SelSt),
      (∀ ci ∈ l, ci.platform = pf) →
      ((tryClusters env fld l st).fin = .exhausted →
        (tryClusters env fld l st).appended = []) ∧
      (((tryClusters env fld l st).fin = .launched ∨
        (∃ m, (tryClusters env fld l st).fin = .excOut m)) →
        ∃ w, (tryClusters env fld l st).appended = [w] ∧ w.platform = pf) := by
  intro l
  induction l with
  | nil =>
    intro st _
    refine ⟨fun _ => rfl, fun h => ?_⟩
    rcases h with h | ⟨m, h⟩ <;> simp [tryClusters] at h
  | cons ci rest ih =>
    intro st hplat
    have hpci : ci.platform = pf := hplat ci (List.mem_cons_self ci rest)
    simp only [tryClusters]
    cases hd : (doWorkerBuild env st.a ci).fin with
    | ok =>
      refine ⟨fun h => by simp at h, fun _ => ?_⟩
      obtain ⟨w, hw, hwp⟩ := doWorkerBuild_ok_append env st.a ci hd
      exact ⟨w, by simp [hw], hpci ▸ hwp⟩
    | otherRaise m =>
      refine ⟨fun h => by simp at h, fun _ => ?_⟩
      obtain ⟨w, hw, hwp⟩ := doWorkerBuild_other_append env st.a ci m hd
      exact ⟨w, by simp [hw], hpci ▸ hwp⟩
    | osbsRaise m =>
      have hap := doWorkerBuild_osbs_append env st.a ci m hd
      have ih' := fun st' =>
        ih st' (fun ci' hci' => hplat ci' (List.mem_cons_of_mem _ hci'))
      constructor
      · intro hfin
        simp only at hfin
        rw [hap, List.nil_append]
        exact (ih' _).1 hfin
      · intro hfin
        simp only at hfin
        rw [hap, List.nil_append]
        exact (ih' _).2 hfin

theorem scanList_platform (env : Env) (fd : Int) (pf : String)
    (l : List Cluster) (s : ScanSt) :
    ∀ x ∈ (l.foldl (scanOne env fd pf) s).possible,
      x ∈ s.possible ∨ x.platform = pf := by
  induction l generalizing s with
  | nil => exact fun x hx => Or.inl hx
  | cons c l ih =>
    intro x hx
    rcases ih (scanOne env fd pf s c) x hx with h | h
    · rcases scanOne_possible env fd pf s c with hp | ⟨-, ld, hp⟩
      · exact Or.inl (hp ▸ h)
      · rw [hp] at h
        rcases List.mem_append.mp h with h' | h'
        · exact Or.inl h'
        · right
          have : x = ⟨c, pf, ld⟩ := by simpa using h'
          rw [this]
    · exact Or.inr h

theorem gcLoop_platform (env : Env) (fd : Int) (pf : String) (cl : List Cluster) :
    ∀ (fuel : Nat) (cands : List Cluster) (possible : List ClusterInfo)
      (st : SelSt) (P : List ClusterInfo) (st2 : SelSt),
      (∀ x ∈ possible, x.platform = pf) →
      gcLoop env fd pf cl fuel cands possible st = some (.ok (P, st2)) →
      ∀ x ∈ P, x.platform = pf := by
  intro fuel
  induction fuel with
  | zero => intro cands possible st P st2 _ h; simp [gcLoop] at h
  | succ fuel ih =>
    intro cands possible st P st2 hpos h
    rw [gcLoop] at h
    by_cases hc : (cands.isEmpty || !possible.isEmpty) = true
    · rw [if_pos hc] at h
      simp only [Option.some.injEq, Except.ok.injEq, Prod.mk.injEq] at h
      intro x hx
      exact hpos x (h.1 ▸ hx)
    · rw [if_neg hc] at h
      cases hw : waitForAnyCluster cl st.ctxs st.tick with
      | error e => rw [hw] at h; simp at h
      | ok tick' =>
        rw [hw] at h
        dsimp only at h
        refine ih _ _ _ P st2 ?_ h
        intro x hx
        unfold scanRound at hx
        rcases scanList_platform env fd pf (sortByPriority cands) _ x hx with h' | h'
        · exact hpos x h'
        · exact h'

theorem getClusters_platform (env : Env) (fd : Int) (pf : String)
    (clusters : List Cluster) (fuel : Nat) (st : SelSt)
    (ranked : List ClusterInfo) (st2 : SelSt)
    (h : getClusters env fd pf clusters fuel st = some (.ok (ranked, st2))) :
    ∀ ci ∈ ranked, ci.platform = pf := by
  unfold getClusters at h
  cases hgl : gcLoop env fd pf clusters fuel clusters [] st with
  | none => rw [hgl] at h; simp at h
  | some r =>
    rw [hgl] at h
    cases r with
    | error e => simp at h
    | ok pr =>
      obtain ⟨P, st3⟩ := pr
      have hP := gcLoop_platform env fd pf clusters fuel clusters [] st P st3
        (by intro x hx; simp at hx) hgl
      have heq : ranked = sortInfoByLoad (sortInfoByPriority P) ∧ st2 = st3 := by
        simp only at h
        injection h with h'
        injection h' with h''
        exact ⟨(Prod.mk.inj h'').1.symm, (Prod.mk.inj h'').2.symm⟩
      intro ci hci
      rw [heq.1] at hci
      have : ci ∈ sortInfoByPriority P :=
        (List.mem_insertionSort _).mp hci
      exact hP ci ((List.mem_insertionSort _).mp this)

theorem selectLoop_ok_singleton (env : Env) (gf : Nat) (fd fld : Int)
    (pf : String) (clusters : List Cluster) :
    ∀ (lf : Nat) (st : SelSt) (ws : List WBI) (st' : SelSt)
      (r : Except TaskExc Unit),
      selectLoop env gf fd fld pf clusters lf st = some (ws, st', r) →
      r = .ok () →
      ∃ w, ws = [w] ∧ w.platform = pf := by
  intro lf
  induction lf with
  | zero => intro st ws st' r h _; simp [selectLoop] at h
  | succ lf ih =>
    intro st ws st' r h hr
    rw [selectLoop] at h
    cases hgc : getClusters env fd pf clusters gf st with
    | none => rw [hgc] at h; simp at h
    | some res =>
      rw [hgc] at h
      cases res with
      | error e =>
        dsimp only at h
        injection h with h'
        obtain ⟨hws, -, -⟩ := Prod.mk.inj h'.symm |>.imp id Prod.mk.inj
        refine ⟨⟨none, none, pf, some allClustersFailedMsg⟩, ?_, rfl⟩
        have := Prod.mk.inj h'.symm
        exact this.1
      | ok pr =>
        obtain ⟨ranked, st2⟩ := pr
        have hplat := getClusters_platform env fd pf clusters gf st ranked st2 hgc
        dsimp only at h
        cases ht : (tryClusters env fld ranked st2).fin with
        | launched =>
          rw [ht] at h
          injection h with h'
          have hinj := Prod.mk.inj h'.symm
          obtain ⟨w, hw, hwp⟩ := ((tryClusters_shape env fld pf ranked st2 hplat).2)
            (Or.inl ht)
          exact ⟨w, hinj.1 ▸ hw, hwp⟩
        | excOut m =>
          rw [ht] at h
          injection h with h'
          have hinj := Prod.mk.inj h'.symm
          have : r = .error (.otherExc m) := (Prod.mk.inj hinj.2).2
          rw [hr] at this
          simp at this
        | exhausted =>
          rw [ht] at h
          cases hrec : selectLoop env gf fd fld pf clusters lf
              (tryClusters env fld ranked st2).st with
          | none => rw [hrec] at h; simp at h
          | some res2 =>
            obtain ⟨ws2, st3, r2⟩ := res2
            rw [hrec] at h
            dsimp only at h
            injection h with h'
            have hinj := Prod.mk.inj h'.symm
            have hr2 : r2 = .ok () := by
              rw [← hr]
              exact ((Prod.mk.inj hinj.2).2).symm
            obtain ⟨w, hw2, hwp⟩ := ih _ ws2 st3 r2 hrec hr2
            have hap : (tryClusters env fld ranked st2).appended = [] :=
              (tryClusters_shape env fld pf ranked st2 hplat).1 ht
            refine ⟨w, ?_, hwp⟩
            rw [hinj.1, hap, hw2, List.nil_append]

theorem selectAndStart_ok_singleton (env : Env) (gf lf : Nat) (fd fld : Int)
    (mf : Nat) (pf : String) (clusters : List Cluster)
    (ws : List WBI) (r : Except TaskExc Unit)
    (h : selectAndStartCluster env gf lf fd fld mf pf clusters = some (ws, r))
    (hr : r = .ok ()) :
    ∃ w, ws = [w] ∧ w.platform = pf := by
  unfold selectAndStartCluster at h
  by_cases hc : clusters.isEmpty = true
  · rw [if_pos hc] at h
    injection h with h'
    have hinj := Prod.mk.inj h'.symm
    rw [hr] at hinj
    simp at hinj
  · rw [if_neg hc] at h
    dsimp only at h
    cases hsl : selectLoop env gf fd fld pf clusters lf
        { tick := 0, q := 0, a := 0, ctxs := fun _ => RetryCtx.fresh mf } with
    | none => rw [hsl] at h; simp at h
    | some res =>
      obtain ⟨ws2, st2, r2⟩ := res
      rw [hsl] at h
      dsimp only at h
      injection h with h'
      have hinj := Prod.mk.inj h'.symm
      rcases selectLoop_ok_singleton env gf fd fld pf clusters lf _ ws2 st2 r2
        hsl (by rw [← hr]; exact hinj.2.symm) with ⟨w, hw, hwp⟩
      exact ⟨w, hinj.1 ▸ hw, hwp⟩

theorem foldl_pyInsert_fresh (ws : List WBI) :
    ∀ acc : List (String × WBI),
      (∀ w ∈ ws, w.platform ∉ acc.map Prod.fst) →
      (ws.map (fun w => w.platform)).Nodup →
      ws.foldl (fun m w => pyInsert m w.platform w) acc =
        acc ++ ws.map (fun w => (w.platform, w)) := by
  induction ws with
  | nil => intro acc _ _; simp
  | cons w ws ih =>
    intro acc hfresh hnd
    simp only [List.map_cons, List.nodup_cons] at hnd
    rw [List.foldl_cons,
      pyInsert_fresh acc w.platform w (hfresh w (List.mem_cons_self w ws))]
    rw [ih (acc ++ [(w.platform, w)]) ?_ hnd.2]
    · simp
    · intro w' hw'
      simp only [List.map_append, List.mem_append]
      push_neg
      constructor
      · exact hfresh w' (List.mem_cons_of_mem _ hw')
      · simp only [List.map_cons, List.map_nil, List.mem_singleton]
        intro he
        exact hnd.1 (he ▸ List.mem_map_of_mem (fun w => w.platform) hw')

theorem buildInfoMap_of_distinct (ws : List WBI)
    (h : (ws.map (fun w => w.platform)).Nodup) :
    buildInfoMap ws = ws.map (fun w => (w.platform, w)) := by
  unfold buildInfoMap
  rw [foldl_pyInsert_fresh ws [] (by simp) h]
  simp

theorem runTasks_ok_platforms (te : String → TaskEnv) (gf lf : Nat)
    (fd fld : Int) (mf : Nat) :
    ∀ (ps : List String) (results : List (List WBI × Except TaskExc Unit)),
      runTasks te gf lf fd fld mf ps = some results →
      firstTaskExc results = none →
      ((results.map (·.1)).flatten).map (fun w => w.platform) = ps := by
  intro ps
  induction ps with
  | nil =>
    intro results h _
    injection h with h'
    subst h'
    rfl
  | cons p ps ih =>
    intro results h hf
    rw [runTasks] at h
    cases hs : selectAndStartCluster (te p).env gf lf fd fld mf p (te p).clusters with
    | none => rw [hs] at h; simp at h
    | some r =>
      rw [hs] at h
      cases hrt : runTasks te gf lf fd fld mf ps with
      | none => rw [hrt] at h; simp at h
      | some rs =>
        rw [hrt] at h
        injection h with h'
        subst h'
        obtain ⟨ws0, r2⟩ := r
        cases r2 with
        | error e => simp [firstTaskExc] at hf
        | ok u =>
          cases u
          have hf' : firstTaskExc rs = none := by
            simpa [firstTaskExc] using hf
          obtain ⟨w, hw, hwp⟩ := selectAndStart_ok_singleton (te p).env gf lf
            fd fld mf p (te p).clusters ws0 (.ok ()) hs rfl
          subst hw
          simp only [List.map_cons, List.flatten_cons, List.map_append]
          rw [ih rs hrt hf']
          simp [hwp]

/-- Claim C4: whenever `run` completes the task phase without raising an
orchestration-level error (so the per-platform build-info mapping is
published), the published mapping has exactly one entry per requested
platform, keyed in order, each entry holding a `WorkerBuildInfo` of that
platform. -/
theorem c4_one_entry_per_platform (te : String → TaskEnv) (gf lf : Nat)
    (fd fld : Int) (mf : Nat) (platforms : List String) (out : RunOut)
    (pub : List (String × WBI))
    (hnd : platforms.Nodup)
    (hrun : runPlugin te gf lf fd fld mf platforms = some out)
    (hpub : out.publishedMap = some pub) :
    pub.map Prod.fst = platforms ∧ ∀ pw ∈ pub, pw.2.platform = pw.1 := by
  by_cases hps : platforms.isEmpty = true
  · rw [runPlugin, if_pos hps] at hrun
    injection hrun with h'
    rw [← h'] at hpub
    simp [RunOut.publishedMap] at hpub
  · rw [runPlugin, if_neg hps] at hrun
    cases hrt : runTasks te gf lf fd fld mf platforms with
    | none => rw [hrt] at hrun; simp at hrun
    | some results =>
      rw [hrt] at hrun
      dsimp only at hrun
      injection hrun with h'
      rw [← h'] at hpub
      cases hft : firstTaskExc results with
      | some e =>
        rw [runAggregate_of_exc te results e hft] at hpub
        simp [RunOut.publishedMap] at hpub
      | none =>
        cases hcf : collectFailReasons te ((results.map (·.1)).flatten) with
        | error pe =>
          rw [runAggregate_of_diag_err te results pe hft hcf] at hpub
          simp [RunOut.publishedMap] at hpub
        | ok frs =>
          rw [runAggregate_of_ok te results frs hft hcf] at hpub
          have hpub' : pub = buildInfoMap ((results.map (·.1)).flatten) := by
            by_cases hfr : frs.isEmpty = true
            · rw [if_pos hfr] at hpub
              simp [RunOut.publishedMap] at hpub
              exact hpub.symm
            · rw [if_neg hfr] at hpub
              simp [RunOut.publishedMap] at hpub
              exact hpub.symm
          have hplat := runTasks_ok_platforms te gf lf fd fld mf platforms
            results hrt hft
          have hndw : (((results.map (·.1)).flatten).map (fun w => w.platform)).Nodup := by
            rw [hplat]; exact hnd
          rw [hpub', buildInfoMap_of_distinct _ hndw]
          constructor
          · rw [List.map_map]
            simpa [Function.comp] using hplat
          · intro pw hpw
            simp only [List.mem_map] at hpw
            obtain ⟨w, -, hw⟩ := hpw
            rw [← hw]

/-- Witness for C4: a single platform whose only cluster is dead from the
start (`max_cluster_fails = 0`); the published mapping still has exactly its
entry. -/
theorem c4_witness :
    ([("x86_64", (⟨none, none, "x86_64", some allClustersFailedMsg⟩ : WBI))].map
      Prod.fst = ["x86_64"]) ∧
    (∀ pw ∈ [("x86_64", (⟨none, none, "x86_64", some allClustersFailedMsg⟩ : WBI))],
      pw.2.platform = pw.1) :=
  c4_one_entry_per_platform
    (fun _ => ⟨{ clock := fun _ => 0, loadQ := fun _ _ => some 0,
                 createR := fun _ => .osbsExc "e", monitorR := fun _ => .exc "e",
                 cancelR := fun _ => .ok, podQ := fun _ => .caughtExc },
               [⟨"a", 0, 2⟩]⟩)
    1 1 15 10 0 ["x86_64"]
    (.pluginFailed
      (jsonOfFailReasons [("x86_64", [("general", .str allClustersFailedMsg)])])
      [("x86_64", ⟨none, none, "x86_64", some allClustersFailedMsg⟩)])
    [("x86_64", ⟨none, none, "x86_64", some allClustersFailedMsg⟩)]
    (by simp) rfl rfl

/-- Claim C5: the keyword arguments submitted to `create_worker_build` are
the adjusted base parameters overridden first by the all-platform override
mapping and then by the platform-specific mapping (platform-specific values
winning); the caller-visible base and override mappings pass through
unchanged, so a second dispatch with the same mappings computes the same
kwargs (no cumulative mutation). -/
theorem c5_override_precedence {V : Type} (e : KwEnv V)
    (rel plv kud : V) (tid rov : Option V) (pf : String)
    (hg : ∀ g, pyLookup e.overrideKwargs none = some g → (g.map Prod.fst).Nodup)
    (hp : ∀ p, pyLookup e.overrideKwargs (some pf) = some p →
      (p.map Prod.fst).Nodup) :
    (∀ key,
      pyLookup (doWorkerBuildSubmitKwargs e rel plv kud tid rov pf).1 key =
        optOr (ovLookup e.overrideKwargs (some pf) key)
          (optOr (ovLookup e.overrideKwargs none key)
            (pyLookup (getWorkerBuildKwargs e.buildKwargs rel plv kud tid rov)
              key))) ∧
    (doWorkerBuildSubmitKwargs e rel plv kud tid rov pf).2 = e ∧
    (doWorkerBuildSubmitKwargs
        ((doWorkerBuildSubmitKwargs e rel plv kud tid rov pf).2)
        rel plv kud tid rov pf).1 =
      (doWorkerBuildSubmitKwargs e rel plv kud tid rov pf).1 := by
  refine ⟨?_, rfl, rfl⟩
  intro key
  unfold doWorkerBuildSubmitKwargs ovLookup
  dsimp only
  cases hgl : pyLookup e.overrideKwargs none with
  | none =>
    cases hpl : pyLookup e.overrideKwargs (some pf) with
    | none => simp [optOr]
    | some p =>
      rw [pyLookup_pyUpdate _ p key (hp p hpl)]
      cases hpk : pyLookup p key <;> simp [optOr, hpk]
  | some g =>
    cases hpl : pyLookup e.overrideKwargs (some pf) with
    | none =>
      rw [pyLookup_pyUpdate _ g key (hg g hgl)]
      cases hgk : pyLookup g key with
      | some v => simp [optOr, hgk]
      | none => simp [optOr, hgk]
    | some p =>
      rw [pyLookup_pyUpdate _ p key (hp p hpl),
        pyLookup_pyUpdate _ g key (hg g hgl)]

/-- Witness for C5 over `V := Nat`: base has `user` and `architecture`,
the global override sets `scratch := 2` and `koji_parent_build := 7`, the
platform override sets `scratch := 3`. -/
theorem c5_witness :
    pyLookup (doWorkerBuildSubmitKwargs
      (⟨[("user", 1), ("architecture", 9)],
        [(none, [("scratch", 2), ("koji_parent_build", 7)]),
         (some "ppc64le", [("scratch", 3)])]⟩ : KwEnv Nat)
      10 11 12 none none "ppc64le").1 "scratch" = some 3 ∧
    pyLookup (doWorkerBuildSubmitKwargs
      (⟨[("user", 1), ("architecture", 9)],
        [(none, [("scratch", 2), ("koji_parent_build", 7)]),
         (some "ppc64le", [("scratch", 3)])]⟩ : KwEnv Nat)
      10 11 12 none none "ppc64le").1 "koji_parent_build" = some 7 ∧
    pyLookup (doWorkerBuildSubmitKwargs
      (⟨[("user", 1), ("architecture", 9)],
        [(none, [("scratch", 2), ("koji_parent_build", 7)]),
         (some "ppc64le", [("scratch", 3)])]⟩ : KwEnv Nat)
      10 11 12 none none "ppc64le").1 "architecture" = none ∧
    (doWorkerBuildSubmitKwargs
      (⟨[("user", 1), ("architecture", 9)],
        [(none, [("scratch", 2), ("koji_parent_build", 7)]),
         (some "ppc64le", [("scratch", 3)])]⟩ : KwEnv Nat)
      10 11 12 none none "ppc64le").2 =
      (⟨[("user", 1), ("architecture", 9)],
        [(none, [("scratch", 2), ("koji_parent_build", 7)]),
         (some "ppc64le", [("scratch", 3)])]⟩ : KwEnv Nat) :=
  ⟨((c5_override_precedence _ 10 11 12 none none "ppc64le"
      (fun g hgl => by cases hgl; simp)
      (fun p hpl => by cases hpl; simp)).1 "scratch").trans rfl,
   ((c5_override_precedence _ 10 11 12 none none "ppc64le"
      (fun g hgl => by cases hgl; simp)
      (fun p hpl => by cases hpl; simp)).1 "koji_parent_build").trans rfl,
   ((c5_override_precedence _ 10 11 12 none none "ppc64le"
      (fun g hgl => by cases hgl; simp)
      (fun p hpl => by cases hpl; simp)).1 "architecture").trans rfl,
   (c5_override_precedence _ 10 11 12 none none "ppc64le"
      (fun g hgl => by cases hgl; simp)
      (fun p hpl => by cases hpl; simp)).2.1⟩

theorem runTasks_of (te : String → TaskEnv) (gf lf : Nat) (fd fld : Int)
    (mf : Nat) (ps : List String)
    (f : String → List WBI × Except TaskExc Unit)
    (h : ∀ q ∈ ps, selectAndStartCluster (te q).env gf lf fd fld mf q
      (te q).clusters = some (f q)) :
    runTasks te gf lf fd fld mf ps = some (ps.map f) := by
  induction ps with
  | nil => rfl
  | cons p ps ih =>
    simp only [runTasks]
    rw [h p (List.mem_cons_self p ps)]
    rw [ih (fun p' hp' => h p' (List.mem_cons_of_mem _ hp'))]
    rfl

theorem firstTaskExc_map (ps : List String)
    (f : String → List WBI × Except TaskExc Unit) (p : String) (e : TaskExc)
    (hp : p ∈ ps)
    (hf : ∀ q ∈ ps, q ≠ p → (f q).2 = .ok ())
    (hfp : (f p).2 = .error e) :
    firstTaskExc (ps.map f) = some e := by
  induction ps with
  | nil => cases hp
  | cons q ps ih =>
    by_cases hq : q = p
    · subst hq
      rcases hfq : f q with ⟨w2, r2⟩
      rw [hfq] at hfp
      simp only at hfp
      subst hfp
      simp only [List.map_cons]
      rw [hfq]
      rfl
    · have hqok := hf q (List.mem_cons_self q ps) hq
      rcases hfq : f q with ⟨w2, r2⟩
      rw [hfq] at hqok
      simp only at hqok
      subst hqok
      simp only [List.map_cons]
      rw [hfq]
      show firstTaskExc (ps.map f) = some e
      have hp' : p ∈ ps := by
        rcases List.mem_cons.mp hp with h' | h'
        · exact absurd h'.symm hq
        · exact h'
      exact ih hp' (fun q' hq' => hf q' (List.mem_cons_of_mem _ hq'))

theorem mem_flatten_of_task (ps : List String)
    (f : String → List WBI × Except TaskExc Unit) (q : String) (w : WBI)
    (hq : q ∈ ps) (hw : w ∈ (f q).1) :
    w ∈ ((ps.map f).map (·.1)).flatten := by
  rw [List.mem_flatten]
  exact ⟨(f q).1, by
    simp only [List.map_map, List.mem_map]
    exact ⟨q, hq, rfl⟩, hw⟩

/-- Counterexample to claim C6: two platforms, `spam` has no configured
clusters and `x86_64` completes its task; `run` re-raises the
`UnknownPlatformException` at top level and publishes no per-platform
results, so the sibling's result is discarded (the claim says sibling tasks
still produce their own results and only the one platform's task aborts). -/
theorem c6_counterexample :
    runPlugin
      (fun q => ⟨{ clock := fun _ => 0, loadQ := fun _ _ => some 0,
                   createR := fun _ => .osbsExc "e", monitorR := fun _ => .exc "e",
                   cancelR := fun _ => .ok, podQ := fun _ => .caughtExc },
                 if q = "spam" then [] else [⟨"a", 0, 2⟩]⟩)
      1 1 15 10 0 ["x86_64", "spam"] =
      some (.raised (.unknownPlatform "No clusters found for platform spam!")
        [⟨none, none, "x86_64", some allClustersFailedMsg⟩]) ∧
    (RunOut.raised (.unknownPlatform "No clusters found for platform spam!")
        [⟨none, none, "x86_64", some allClustersFailedMsg⟩]).publishedMap = none :=
  ⟨rfl, rfl⟩

/-- Claim C6 (amended): `UnknownPlatformException` is raised immediately
for a platform with no configured clusters, without any retry, and aborts
that platform's task with nothing appended; sibling tasks still run to
completion and their worker-build infos are recorded, but `run` then
re-raises the exception, so the whole dispatch aborts and no platform's
results are published. -/
theorem c6_unknown_platform_amended (te : String → TaskEnv) (gf lf : Nat)
    (fd fld : Int) (mf : Nat) (platforms : List String) (p : String)
    (ws : String → List WBI)
    (hp : p ∈ platforms)
    (hempty : (te p).clusters = [])
    (hok : ∀ q ∈ platforms, q ≠ p →
      selectAndStartCluster (te q).env gf lf fd fld mf q (te q).clusters =
        some (ws q, .ok ())) :
    selectAndStartCluster (te p).env gf lf fd fld mf p (te p).clusters =
      some ([], .error (.unknownPlatform
        ("No clusters found for platform " ++ p ++ "!"))) ∧
    ∃ wbis,
      runPlugin te gf lf fd fld mf platforms =
        some (.raised (.unknownPlatform
          ("No clusters found for platform " ++ p ++ "!")) wbis) ∧
      (∀ q ∈ platforms, q ≠ p → ∀ w ∈ ws q, w ∈ wbis) ∧
      (RunOut.raised (.unknownPlatform
        ("No clusters found for platform " ++ p ++ "!")) wbis).publishedMap
        = none := by
  have htask : selectAndStartCluster (te p).env gf lf fd fld mf p
      (te p).clusters = some ([], .error (.unknownPlatform
        ("No clusters found for platform " ++ p ++ "!"))) := by
    rw [hempty]
    rfl
  refine ⟨htask, ?_⟩
  set f : String → List WBI × Except TaskExc Unit :=
    fun q => if q = p
      then ([], .error (.unknownPlatform
        ("No clusters found for platform " ++ p ++ "!")))
      else (ws q, .ok ()) with hf
  have hall : ∀ q ∈ platforms, selectAndStartCluster (te q).env gf lf fd fld
      mf q (te q).clusters = some (f q) := by
    intro q hq
    by_cases hqp : q = p
    · subst hqp
      simp only [hf, if_pos rfl]
      exact htask
    · simp only [hf, if_neg hqp]
      exact hok q hq hqp
  have hrt := runTasks_of te gf lf fd fld mf platforms f hall
  have hne : ¬ platforms.isEmpty = true := by
    cases platforms with
    | nil => cases hp
    | cons a l => simp
  have hfe : firstTaskExc (platforms.map f) =
      some (.unknownPlatform ("No clusters found for platform " ++ p ++ "!")) := by
    apply firstTaskExc_map platforms f p _ hp
    · intro q hq hqp
      simp [hf, if_neg hqp]
    · simp [hf]
  refine ⟨((platforms.map f).map (·.1)).flatten, ?_, ?_, rfl⟩
  · rw [runPlugin, if_neg hne, hrt]
    show some (runAggregate te (platforms.map f)) = _
    rw [runAggregate_of_exc te (platforms.map f) _ hfe]
    rfl
  · intro q hq hqp w hw
    apply mem_flatten_of_task platforms f q w hq
    simp [hf, if_neg hqp, hw]

/-- Witness for the amended C6 at the concrete two-platform scenario. -/
theorem c6_witness :
    selectAndStartCluster
      { clock := fun _ => 0, loadQ := fun _ _ => some 0,
        createR := fun _ => .osbsExc "e", monitorR := fun _ => .exc "e",
        cancelR := fun _ => .ok, podQ := fun _ => .caughtExc }
      1 1 15 10 0 "spam" [] =
      some ([], .error (.unknownPlatform
        ("No clusters found for platform " ++ "spam" ++ "!"))) ∧
    ∃ wbis,
      runPlugin
        (fun q => ⟨{ clock := fun _ => 0, loadQ := fun _ _ => some 0,
                     createR := fun _ => .osbsExc "e", monitorR := fun _ => .exc "e",
                     cancelR := fun _ => .ok, podQ := fun _ => .caughtExc },
                   if q = "spam" then [] else [⟨"a", 0, 2⟩]⟩)
        1 1 15 10 0 ["x86_64", "spam"] =
        some (.raised (.unknownPlatform
          ("No clusters found for platform " ++ "spam" ++ "!")) wbis) ∧
      (∀ q ∈ ["x86_64", "spam"], q ≠ "spam" →
        ∀ w ∈ [(⟨none, none, q, some allClustersFailedMsg⟩ : WBI)], w ∈ wbis) ∧
      (RunOut.raised (.unknownPlatform
        ("No clusters found for platform " ++ "spam" ++ "!")) wbis).publishedMap
        = none := by
  have h := c6_unknown_platform_amended
    (fun q => ⟨{ clock := fun _ => 0, loadQ := fun _ _ => some 0,
                 createR := fun _ => .osbsExc "e", monitorR := fun _ => .exc "e",
                 cancelR := fun _ => .ok, podQ := fun _ => .caughtExc },
               if q = "spam" then [] else [⟨"a", 0, 2⟩]⟩)
    1 1 15 10 0 ["x86_64", "spam"] "spam"
    (fun q => [⟨none, none, q, some allClustersFailedMsg⟩])
    (by simp) rfl
    (by
      intro q hq hqp
      rcases List.mem_cons.mp hq with h' | h'
      · subst h'
        rfl
      · rcases List.mem_cons.mp h' with h'' | h''
        · exact absurd h'' hqp
        · cases h'')
  exact h

theorem pyLookup_pyUpdate_not_mem {K V : Type} [DecidableEq K]
    (m u : List (K × V)) (k : K) (h : k ∉ u.map Prod.fst) :
    pyLookup (pyUpdate m u) k = pyLookup m k := by
  induction u generalizing m with
  | nil => rfl
  | cons kv u ih =>
    simp only [List.map_cons, List.mem_cons] at h
    push_neg at h
    have step : pyUpdate m (kv :: u) = pyUpdate (pyInsert m kv.1 kv.2) u := rfl
    rw [step, ih _ h.2, pyLookup_pyInsert]
    simp [h.1]

/-- Counterexample to claim C7: the monitor exception is recorded and
`cancel_build` runs once, but `get_fail_reason` then overwrites the
`'general'` entry with the build's `plugins-metadata` `errors['general']`,
so the failure reason does not equal the captured exception's message. -/
theorem c7_counterexample :
    (doWorkerBuild
      { clock := fun _ => 0, loadQ := fun _ _ => some 0,
        createR := fun _ => .ok ⟨"wb", false, false,
          some [("plugins-metadata", .ok (.obj
            [("errors", .obj [("general", .str "other")])]))]⟩,
        monitorR := fun _ => .exc "boom", cancelR := fun _ => .ok,
        podQ := fun _ => .caughtExc }
      0 ⟨⟨"c1", 0, 2⟩, "x86_64", 0⟩).appended =
      [⟨some ⟨"wb", false, false,
          some [("plugins-metadata", .ok (.obj
            [("errors", .obj [("general", .str "other")])]))]⟩,
        some "c1", "x86_64", some "boom"⟩] ∧
    (doWorkerBuild
      { clock := fun _ => 0, loadQ := fun _ _ => some 0,
        createR := fun _ => .ok ⟨"wb", false, false,
          some [("plugins-metadata", .ok (.obj
            [("errors", .obj [("general", .str "other")])]))]⟩,
        monitorR := fun _ => .exc "boom", cancelR := fun _ => .ok,
        podQ := fun _ => .caughtExc }
      0 ⟨⟨"c1", 0, 2⟩, "x86_64", 0⟩).cancelBuildCalls = 1 ∧
    getFailReason (fun _ => .caughtExc)
      ⟨some ⟨"wb", false, false,
          some [("plugins-metadata", .ok (.obj
            [("errors", .obj [("general", .str "other")])]))]⟩,
        some "c1", "x86_64", some "boom"⟩ =
      .ok [("general", .str "other")] ∧
    ("other" : String) ≠ "boom" :=
  ⟨rfl, rfl, rfl, by decide⟩

/-- Claim C7 (amended): an exception while streaming logs or waiting for
completion is terminal for the platform: it is recorded as the build's
`monitor_exception`, `cancel_build` is attempted exactly once with
remote-side (`OsbsException`) cancel errors swallowed, the task never
returns to cluster selection, and the failure reason's `'general'` entry
equals the captured exception's message provided the build's
`plugins-metadata` `errors` mapping does not itself supply a `'general'`
key (otherwise that value overwrites it). -/
theorem c7_monitor_failure_terminal (env : Env) (a : Nat) (ci : ClusterInfo)
    (b : Build) (m : String)
    (hc : env.createR a = .ok b)
    (hm : env.monitorR a = .exc m)
    (hcan : b.finished = true ∨ env.cancelR a = .ok ∨
      ∃ cm, env.cancelR a = .osbsExc cm) :
    doWorkerBuild env a ci =
      { appended := [⟨some b, some ci.cluster.name, ci.platform, some m⟩],
        cancelBuildCalls := 1, fin := .ok } ∧
    (∀ (fld : Int) (rest : List ClusterInfo) (st : SelSt), st.a = a →
      tryClusters env fld (ci :: rest) st =
        { st := { st with a := st.a + 1 },
          appended := [⟨some b, some ci.cluster.name, ci.platform, some m⟩],
          attempted := [ci.cluster.name], fin := .launched }) ∧
    (∀ (podQ : String → PodTryRes) (md : Json) (fr : List (String × Json)),
      (pyLookup (b.annots.getD []) "plugins-metadata").getD (.ok (.obj [])) =
        .ok md →
      getFailReason podQ ⟨some b, some ci.cluster.name, ci.platform, some m⟩ =
        .ok fr →
      (∀ fields, jsonGetItem md "errors" = .found (.obj fields) →
        "general" ∉ fields.map Prod.fst) →
      pyLookup fr "general" = some (.str m)) := by
  have hdo : doWorkerBuild env a ci =
      { appended := [⟨some b, some ci.cluster.name, ci.platform, some m⟩],
        cancelBuildCalls := 1, fin := .ok } := by
    unfold doWorkerBuild
    rw [hc, hm]
    dsimp only
    rcases hcan with hfin | hcr | ⟨cm, hcr⟩
    · rw [if_pos hfin]
    · by_cases hfin : b.finished = true
      · rw [if_pos hfin]
      · rw [if_neg hfin, hcr]
    · by_cases hfin : b.finished = true
      · rw [if_pos hfin]
      · rw [if_neg hfin, hcr]
  refine ⟨hdo, ?_, ?_⟩
  · intro fld rest st hst
    subst hst
    simp only [tryClusters, hdo]
  · intro podQ md fr hmd hgfr hng
    unfold getFailReason at hgfr
    dsimp only at hgfr
    rw [hmd] at hgfr
    dsimp only at hgfr
    cases hjg : jsonGetItem md "errors" with
    | found errs =>
      rw [hjg] at hgfr
      dsimp only at hgfr
      cases errs with
      | obj fields =>
        unfold dictUpdateJson at hgfr
        dsimp only at hgfr
        injection hgfr with hfr
        subst hfr
        rw [pyLookup_pyUpdate_not_mem _ fields "general" (hng fields hjg)]
        rw [pyLookup_pyInsert]
        simp
      | null => simp [dictUpdateJson] at hgfr
      | bool v => simp [dictUpdateJson] at hgfr
      | str v => simp [dictUpdateJson] at hgfr
      | num v => simp [dictUpdateJson] at hgfr
      | arr v => simp [dictUpdateJson] at hgfr
    | typeErr =>
      rw [hjg] at hgfr
      simp at hgfr
    | keyErr =>
      rw [hjg] at hgfr
      dsimp only at hgfr
      cases hpod : podQ b.buildName with
      | ok j =>
        rw [hpod] at hgfr
        injection hgfr with hfr
        subst hfr
        rw [pyLookup_pyInsert]
        rw [pyLookup_pyInsert]
        simp
      | caughtExc =>
        rw [hpod] at hgfr
        injection hgfr with hfr
        subst hfr
        rw [pyLookup_pyInsert]
        simp
      | uncaughtExc mu =>
        rw [hpod] at hgfr
        simp at hgfr

/-- Witness for the amended C7: monitor failure `"boom"` on a build with no
annotations; the failure reason's `'general'` entry is the message. -/
theorem c7_witness :
    doWorkerBuild
      { clock := fun _ => 0, loadQ := fun _ _ => some 0,
        createR := fun _ => .ok ⟨"wb", false, false, none⟩,
        monitorR := fun _ => .exc "boom", cancelR := fun _ => .ok,
        podQ := fun _ => .caughtExc }
      0 ⟨⟨"c1", 0, 2⟩, "x86_64", 0⟩ =
      { appended := [⟨some ⟨"wb", false, false, none⟩, some "c1", "x86_64",
          some "boom"⟩],
        cancelBuildCalls := 1, fin := .ok } ∧
    pyLookup [("general", Json.str "boom")] "general" = some (.str "boom") := by
  have h := c7_monitor_failure_terminal
    { clock := fun _ => 0, loadQ := fun _ _ => some 0,
      createR := fun _ => .ok ⟨"wb", false, false, none⟩,
      monitorR := fun _ => .exc "boom", cancelR := fun _ => .ok,
      podQ := fun _ => .caughtExc }
    0 ⟨⟨"c1", 0, 2⟩, "x86_64", 0⟩ ⟨"wb", false, false, none⟩ "boom"
    rfl rfl (Or.inr (Or.inl rfl))
  refine ⟨h.1, ?_⟩
  exact h.2.2 (fun _ => .caughtExc) (.obj []) [("general", Json.str "boom")]
    rfl rfl (fun fields hf => by simp [jsonGetItem, pyLookup] at hf)

/-- Counterexample to claim C9: an unexpected (non-Osbs) error from
`create_worker_build` is only logged — the resulting `WorkerBuildInfo` has
`monitor_exception = None`, not the raised exception. -/
theorem c9_counterexample :
    (doWorkerBuild
      { clock := fun _ => 0, loadQ := fun _ _ => some 0,
        createR := fun _ => .otherExc "boom", monitorR := fun _ => .exc "e",
        cancelR := fun _ => .ok, podQ := fun _ => .caughtExc }
      0 ⟨⟨"c1", 0, 2⟩, "x86_64", 0⟩).appended =
      [⟨none, some "c1", "x86_64", none⟩] ∧
    (⟨none, some "c1", "x86_64", none⟩ : WBI).monExc = none ∧
    (none : Option String) ≠ some "boom" :=
  ⟨rfl, rfl, by simp⟩

/-- Claim C9 (amended): a non-`OsbsException` during `create_worker_build`
is swallowed after logging: the attempt loop stops (the dispatch loop is
not aborted) and a `WorkerBuildInfo` with no backing remote build and no
recorded `monitor_exception` is appended; its failure reason is the generic
`'build not started'`, not the raised exception's message. -/
theorem c9_unexpected_create_error (env : Env) (a : Nat) (ci : ClusterInfo)
    (m : String)
    (hc : env.createR a = .otherExc m) :
    doWorkerBuild env a ci =
      { appended := [⟨none, some ci.cluster.name, ci.platform, none⟩],
        cancelBuildCalls := 0, fin := .ok } ∧
    (∀ podQ, getFailReason podQ ⟨none, some ci.cluster.name, ci.platform, none⟩ =
      .ok [("general", .str "build not started")]) ∧
    (∀ (fld : Int) (rest : List ClusterInfo) (st : SelSt), st.a = a →
      tryClusters env fld (ci :: rest) st =
        { st := { st with a := st.a + 1 },
          appended := [⟨none, some ci.cluster.name, ci.platform, none⟩],
          attempted := [ci.cluster.name], fin := .launched }) := by
  have hdo : doWorkerBuild env a ci =
      { appended := [⟨none, some ci.cluster.name, ci.platform, none⟩],
        cancelBuildCalls := 0, fin := .ok } := by
    unfold doWorkerBuild
    rw [hc]
  refine ⟨hdo, fun podQ => rfl, ?_⟩
  intro fld rest st hst
  subst hst
  simp only [tryClusters, hdo]

/-- Witness for the amended C9 at a concrete environment. -/
theorem c9_witness :
    doWorkerBuild
      { clock := fun _ => 0, loadQ := fun _ _ => some 0,
        createR := fun _ => .otherExc "boom", monitorR := fun _ => .exc "e",
        cancelR := fun _ => .ok, podQ := fun _ => .caughtExc }
      0 ⟨⟨"c1", 0, 2⟩, "x86_64", 0⟩ =
      { appended := [⟨none, some "c1", "x86_64", none⟩],
        cancelBuildCalls := 0, fin := .ok } ∧
    getFailReason (fun _ => .caughtExc) ⟨none, some "c1", "x86_64", none⟩ =
      .ok [("general", .str "build not started")] := by
  have h := c9_unexpected_create_error
    { clock := fun _ => 0, loadQ := fun _ _ => some 0,
      createR := fun _ => .otherExc "boom", monitorR := fun _ => .exc "e",
      cancelR := fun _ => .ok, podQ := fun _ => .caughtExc }
    0 ⟨⟨"c1", 0, 2⟩, "x86_64", 0⟩ "boom" rfl
  exact ⟨h.1, h.2.1 (fun _ => .caughtExc)⟩

/-- Counterexample to claim C10: `get_fail_reason` raises `ValueError` when
the backing build's `plugins-metadata` annotation is not valid JSON
(`json.loads` is not guarded). -/
theorem c10_counterexample :
    getFailReason (fun _ => .caughtExc)
      ⟨some ⟨"wb", false, false, some [("plugins-metadata", .error ())]⟩,
        some "c1", "x86_64", none⟩ = .error .valueError := rfl

/-- Claim C10 (amended): `get_fail_reason` returns without raising whenever
the build's `plugins-metadata` annotation parses (defaulting to `{}`) and
its `errors` member, when present, is a JSON object, and the pod-inspection
only raises `OsbsException`/`AttributeError`; with no backing build it
returns the `'general'` entry (monitor message, else `'build not
started'`); with no monitor error, no metadata errors and a swallowed pod
error it falls back to the empty mapping; but a malformed annotation or a
pod-inspection error of another type propagates (`ValueError` /
the underlying exception). -/
theorem c10_fail_reason_totality :
    (∀ (podQ : String → PodTryRes) (cn : Option String) (pf : String)
        (me : Option String),
      getFailReason podQ ⟨none, cn, pf, me⟩ =
        .ok [("general", .str ((me.getD "build not started")))]) ∧
    (∀ (podQ : String → PodTryRes) (b : Build) (cn : Option String)
        (pf : String) (me : Option String) (md : Json),
      (pyLookup (b.annots.getD []) "plugins-metadata").getD (.ok (.obj [])) =
        .ok md →
      ((∃ fields, jsonGetItem md "errors" = .found (.obj fields)) ∨
        (jsonGetItem md "errors" = .keyErr ∧
          ∀ mu, podQ b.buildName ≠ .uncaughtExc mu)) →
      ∃ fr, getFailReason podQ ⟨some b, cn, pf, me⟩ = .ok fr) ∧
    (∀ (podQ : String → PodTryRes) (b : Build) (cn : Option String)
        (pf : String) (md : Json),
      (pyLookup (b.annots.getD []) "plugins-metadata").getD (.ok (.obj [])) =
        .ok md →
      jsonGetItem md "errors" = .keyErr →
      podQ b.buildName = .caughtExc →
      getFailReason podQ ⟨some b, cn, pf, none⟩ = .ok []) ∧
    (∀ (podQ : String → PodTryRes) (b : Build) (cn : Option String)
        (pf : String) (md : Json) (mu : String),
      (pyLookup (b.annots.getD []) "plugins-metadata").getD (.ok (.obj [])) =
        .ok md →
      jsonGetItem md "errors" = .keyErr →
      podQ b.buildName = .uncaughtExc mu →
      getFailReason podQ ⟨some b, cn, pf, none⟩ = .error (.podErr mu)) := by
  refine ⟨?_, ?_, ?_, ?_⟩
  · intro podQ cn pf me
    cases me <;> rfl
  · intro podQ b cn pf me md hmd herr
    unfold getFailReason
    dsimp only
    rw [hmd]
    dsimp only
    rcases herr with ⟨fields, hjg⟩ | ⟨hjg, hpod⟩
    · rw [hjg]
      cases me <;> exact ⟨_, rfl⟩
    · rw [hjg]
      cases hp : podQ b.buildName with
      | ok j => cases me <;> exact ⟨_, rfl⟩
      | caughtExc => cases me <;> exact ⟨_, rfl⟩
      | uncaughtExc mu => exact absurd hp (hpod mu)
  · intro podQ b cn pf md hmd hjg hpod
    unfold getFailReason
    dsimp only
    rw [hmd]
    dsimp only
    rw [hjg, hpod]
    simp
  · intro podQ b cn pf md mu hmd hjg hpod
    unfold getFailReason
    dsimp only
    rw [hmd]
    dsimp only
    rw [hjg, hpod]

/-- Witness for the amended C10: concrete placeholder, empty-metadata and
uncaught-pod-error cases. -/
theorem c10_witness :
    getFailReason (fun _ => .caughtExc) ⟨none, some "c1", "x86_64", some "boom"⟩ =
      .ok [("general", .str "boom")] ∧
    getFailReason (fun _ => .caughtExc)
      ⟨some ⟨"wb", false, false, none⟩, some "c1", "x86_64", none⟩ = .ok [] ∧
    getFailReason (fun _ => .uncaughtExc "pod down")
      ⟨some ⟨"wb", false, false, none⟩, some "c1", "x86_64", none⟩ =
      .error (.podErr "pod down") :=
  ⟨c10_fail_reason_totality.1 (fun _ => .caughtExc) (some "c1") "x86_64"
      (some "boom"),
   c10_fail_reason_totality.2.2.1 (fun _ => .caughtExc)
      ⟨"wb", false, false, none⟩ (some "c1") "x86_64" (.obj []) rfl rfl rfl,
   c10_fail_reason_totality.2.2.2 (fun _ => .uncaughtExc "pod down")
      ⟨"wb", false, false, none⟩ (some "c1") "x86_64" (.obj []) "pod down"
      rfl rfl rfl⟩

theorem collectFailReasons_keys (te : String → TaskEnv) :
    ∀ (ws : List WBI) (frs : List (String × List (String × Json))),
      collectFailReasons te ws = .ok frs →
      frs.map Prod.fst = (ws.filter wbiFailed).map (fun w => w.platform) := by
  intro ws
  induction ws with
  | nil =>
    intro frs h
    injection h with h'
    subst h'
    rfl
  | cons w ws ih =>
    intro frs h
    rw [collectFailReasons] at h
    by_cases hfail : wbiFailed w = true
    · rw [if_pos hfail] at h
      cases hg : getFailReason (te w.platform).env.podQ w with
      | error e => rw [hg] at h; simp at h
      | ok r =>
        rw [hg] at h
        cases hc : collectFailReasons te ws with
        | error e => rw [hc] at h; simp at h
        | ok rest =>
          rw [hc] at h
          injection h with h'
          subst h'
          have hstep := ih rest hc
          simp [List.filter_cons, hfail, hstep]
    · rw [if_neg hfail] at h
      have := ih frs h
      rw [this]
      simp only [List.filter_cons]
      have hfb : wbiFailed w = false := by
        cases hb : wbiFailed w
        · rfl
        · exact absurd hb hfail
      simp [hfb]

/-- Counterexample to claim C8: one platform's worker build finished
unsuccessfully (so at least one platform failed), but because its
`plugins-metadata` annotation is malformed, computing `fail_reasons` raises
`ValueError`, so `run` raises that error, not `PluginFailedException`. -/
theorem c8_counterexample :
    runPlugin
      (fun _ => ⟨{ clock := fun _ => 1, loadQ := fun _ _ => some 0,
                   createR := fun _ => .ok ⟨"wb", false, false, none⟩,
                   monitorR := fun _ => .ok ⟨"wb", false, true,
                     some [("plugins-metadata", .error ())]⟩,
                   cancelR := fun _ => .ok, podQ := fun _ => .caughtExc },
                 [⟨"a", 0, 1⟩]⟩)
      2 1 15 10 20 ["x86_64"] =
      some (.raised (.diagErr .valueError)
        [⟨some ⟨"wb", false, true, some [("plugins-metadata", .error ())]⟩,
          some "a", "x86_64", none⟩]) ∧
    wbiFailed ⟨some ⟨"wb", false, true, some [("plugins-metadata", .error ())]⟩,
      some "a", "x86_64", none⟩ = true ∧
    (∀ payload pub,
      (RunOut.raised (.diagErr .valueError)
        [⟨some ⟨"wb", false, true, some [("plugins-metadata", .error ())]⟩,
          some "a", "x86_64", none⟩]) ≠ .pluginFailed payload pub) :=
  ⟨rfl, rfl, fun payload pub h => by simp at h⟩

/-- Claim C8 (amended): once all platform tasks return normally and
diagnosing every failed platform itself succeeds, `run` raises
`PluginFailedException` iff at least one platform's worker build has no
backing remote build or an unsuccessful one; the exception's payload is the
JSON serialization of the mapping from each failed platform to its
structured failure reason, and with no failed platform `run` returns
normally.  (If diagnosis raises — e.g. malformed metadata — that error
propagates instead of `PluginFailedException`.) -/
theorem c8_failure_aggregation (te : String → TaskEnv) (gf lf : Nat)
    (fd fld : Int) (mf : Nat) (platforms : List String)
    (results : List (List WBI × Except TaskExc Unit))
    (frs : List (String × List (String × Json)))
    (hne : ¬ platforms.isEmpty = true)
    (hrt : runTasks te gf lf fd fld mf platforms = some results)
    (hft : firstTaskExc results = none)
    (hcf : collectFailReasons te ((results.map (·.1)).flatten) = .ok frs) :
    (runPlugin te gf lf fd fld mf platforms =
      some (if frs.isEmpty
        then .success (buildInfoMap ((results.map (·.1)).flatten))
        else .pluginFailed (jsonOfFailReasons frs)
          (buildInfoMap ((results.map (·.1)).flatten)))) ∧
    (¬ frs.isEmpty = true ↔
      ∃ w ∈ (results.map (·.1)).flatten, wbiFailed w = true) ∧
    frs.map Prod.fst =
      (((results.map (·.1)).flatten).filter wbiFailed).map
        (fun w => w.platform) := by
  have hkeys := collectFailReasons_keys te _ frs hcf
  refine ⟨?_, ?_, hkeys⟩
  · rw [runPlugin, if_neg hne, hrt]
    show some (runAggregate te results) = _
    rw [runAggregate_of_ok te results frs hft hcf]
  · constructor
    · intro hne'
      by_contra hcon
      push_neg at hcon
      apply hne'
      have hfil : ((results.map (·.1)).flatten).filter wbiFailed = [] := by
        apply List.filter_eq_nil_iff.mpr
        intro w hw
        have := hcon w hw
        simpa using this
      rw [List.isEmpty_iff]
      have hmap := hkeys
      rw [hfil] at hmap
      simpa using hmap
    · rintro ⟨w, hw, hfail⟩ hcon
      rw [List.isEmpty_iff] at hcon
      subst hcon
      simp only [List.map_nil] at hkeys
      have hfil : ((results.map (·.1)).flatten).filter wbiFailed = [] := by
        cases hf : ((results.map (·.1)).flatten).filter wbiFailed with
        | nil => rfl
        | cons a l =>
          rw [hf] at hkeys
          simp at hkeys
      have := List.filter_eq_nil_iff.mp hfil w hw
      simp [hfail] at this

/-- Witness for the amended C8: one platform whose only cluster is dead at
start; that platform fails, so `run` raises `PluginFailedException` with
the per-platform reason mapping. -/
theorem c8_witness :
    runPlugin
      (fun _ => ⟨{ clock := fun _ => 0, loadQ := fun _ _ => some 0,
                   createR := fun _ => .osbsExc "e", monitorR := fun _ => .exc "e",
                   cancelR := fun _ => .ok, podQ := fun _ => .caughtExc },
                 [⟨"a", 0, 2⟩]⟩)
      1 1 15 10 0 ["x86_64"] =
      some (.pluginFailed
        (jsonOfFailReasons [("x86_64", [("general", .str allClustersFailedMsg)])])
        (buildInfoMap [⟨none, none, "x86_64", some allClustersFailedMsg⟩])) := by
  have h := c8_failure_aggregation
    (fun _ => ⟨{ clock := fun _ => 0, loadQ := fun _ _ => some 0,
                 createR := fun _ => .osbsExc "e", monitorR := fun _ => .exc "e",
                 cancelR := fun _ => .ok, podQ := fun _ => .caughtExc },
               [⟨"a", 0, 2⟩]⟩)
    1 1 15 10 0 ["x86_64"]
    [([⟨none, none, "x86_64", some allClustersFailedMsg⟩], .ok ())]
    [("x86_64", [("general", .str allClustersFailedMsg)])]
    (by simp) rfl rfl rfl
  exact h.1.trans rfl
